import Mathlib

/-!
Verification development for the conversational ticket-query engine.

The JavaScript sources are embedded shallowly:

* JS strings are `String`, arrays are `List`, numbers are `Nat` (all relevant
  quantities are non-negative counters, lengths, offsets or timestamps),
  possibly-absent object properties are `Option` fields;
* JS truthiness of `x || d` is modelled by dedicated helpers (`jsOrNat`,
  `jsOrStr`, `natOr`, ...) because `0`, `""` and `undefined` are all falsy;
* the regular expressions used by the intent router are transcribed into a
  small executable backtracking regex engine (`RE`, `reTest`) that supports
  exactly the constructs appearing in the source patterns: literals,
  alternation, character classes, greedy `*`/`+`/`?`, `\b` word boundaries
  and the implicit unanchored search of JavaScript `RegExp.test`;
* the external collaborators (MongoDB store, LLM summarizer) are parameters:
  a call that may throw is a function into `Except String _`.
-/

namespace TicketRag

/-- JS `a || b` for numbers: `0` (and absence) is falsy. -/
def natOr (n : Nat) (d : Nat) : Nat :=
  if n = 0 then d else n

/-- JS `a || b` where `a` is a possibly-undefined number. -/
def jsOrNat (o : Option Nat) (d : Nat) : Nat :=
  match o with
  | none => d
  | some n => natOr n d

/-- JS `a || b` for strings: the empty string (and absence) is falsy. -/
def jsOrStr (o : Option String) (d : String) : String :=
  match o with
  | none => d
  | some s => if s = "" then d else s

/-- JS `a || []` for a possibly-undefined array. -/
def jsOrList {α : Type} (o : Option (List α)) : List α :=
  match o with
  | none => []
  | some l => l

/-- JS `String.prototype.includes` (substring test). -/
def jsIncludes (s : String) (sub : String) : Bool :=
  s.data.tails.any (fun t => sub.data.isPrefixOf t)

/-- JS `toLowerCase` (character-wise, which covers the source's ASCII
patterns). -/
def jsToLower (s : String) : String :=
  String.mk (s.data.map Char.toLower)

/-- JS `String.prototype.trim`. -/
def jsTrim (s : String) : String :=
  String.mk (((s.data.dropWhile Char.isWhitespace).reverse.dropWhile
    Char.isWhitespace).reverse)

/-- JS `parseInt` on a non-empty string of decimal digits. -/
def parseDigits (s : String) : Nat :=
  s.data.foldl (fun n c => n * 10 + (c.toNat - 48)) 0

/-! ## Regex engine

Just enough of JavaScript regex semantics for the patterns in the source:
leftmost match, greedy quantifiers with backtracking, `\b` word boundaries.
A matcher state is the flag "previous character was a word character"
together with the remaining input. -/

/-- JS word character (`\w`): letters, digits, underscore (ASCII). -/
def isWordChar (c : Char) : Bool :=
  c.isAlphanum || c == '_'

/-- Regex syntax: empty, literal char, character class, sequencing,
alternation, greedy option, greedy Kleene star of a class, `\b`. -/
inductive RE where
  | eps : RE
  | lit : Char → RE
  | cls : (Char → Bool) → RE
  | seq : RE → RE → RE
  | alt : RE → RE → RE
  | opt : RE → RE
  | many : (Char → Bool) → RE
  | wb : RE

/-- Greedy `p*` in continuation-passing style: consume as much as possible
first, falling back to shorter matches. -/
def manyAux (p : Char → Bool) (k : Bool → List Char → Bool) :
    Bool → List Char → Bool
  | pw, [] => k pw []
  | pw, c :: cs => (p c && manyAux p k (isWordChar c) cs) || k pw (c :: cs)

/-- Is the next character a word character? (for `\b`). -/
def nextIsWord : List Char → Bool
  | [] => false
  | c :: _ => isWordChar c

/-- Backtracking matcher in continuation-passing style.  `pw` says whether
the character immediately before the current position is a word character. -/
def mtch : RE → (Bool → List Char → Bool) → Bool → List Char → Bool
  | .eps, k, pw, l => k pw l
  | .lit c, k, _, l =>
    match l with
    | [] => false
    | x :: xs => x == c && k (isWordChar x) xs
  | .cls p, k, _, l =>
    match l with
    | [] => false
    | x :: xs => p x && k (isWordChar x) xs
  | .seq a b, k, pw, l => mtch a (fun pw2 l2 => mtch b k pw2 l2) pw l
  | .alt a b, k, pw, l => mtch a k pw l || mtch b k pw l
  | .opt a, k, pw, l => mtch a k pw l || k pw l
  | .many p, k, pw, l => manyAux p k pw l
  | .wb, k, pw, l => (pw != nextIsWord l) && k pw l

/-- Try to match `r` starting at every position, left to right
(JS `RegExp.test` on a pattern without anchors). -/
def reTestAux (r : RE) : Bool → List Char → Bool
  | pw, [] => mtch r (fun _ _ => true) pw []
  | pw, c :: cs =>
    mtch r (fun _ _ => true) pw (c :: cs) || reTestAux r (isWordChar c) cs

/-- JS `re.test(s)` for an unanchored pattern. -/
def reTest (r : RE) (s : String) : Bool :=
  reTestAux r false s.data

/-- JS `re.test(s)` for a `^...$` anchored pattern. -/
def reTestFull (r : RE) (s : String) : Bool :=
  mtch r (fun _ l => l.isEmpty) false s.data

/-- Literal word as a regex. -/
def rlit (s : String) : RE :=
  s.data.foldr (fun c acc => RE.seq (RE.lit c) acc) RE.eps

/-- Alternation of a list of regexes (the list is never empty in use). -/
def ralts : List RE → RE
  | [] => RE.eps
  | [r] => r
  | r :: rest => RE.alt r (ralts rest)

/-- Alternation of literal words. -/
def rwords (ws : List String) : RE :=
  ralts (ws.map rlit)

/-- Chain a list of regexes in sequence. -/
def rseq : List RE → RE
  | [] => RE.eps
  | [r] => r
  | r :: rest => RE.seq r (rseq rest)

/-- The JS `.` class (anything but a newline). -/
def dotCls : Char → Bool := fun c => c != '\n'

/-- The JS `\s` class. -/
def wsCls : Char → Bool := fun c => c.isWhitespace

/-- `w1.*w2` (as it appears inside `\b( ... )\b` groups). -/
def rpair (w1 w2 : String) : RE :=
  rseq [rlit w1, RE.many dotCls, rlit w2]

/-! ## The intent router's regular expressions
(src/ai/SuperIntelligentConversationalAI.js), transcribed one for one. -/

/-- `/\b(see more|show more|more|continue|next|show rest|show all|display more)\b/` -/
def contRe1 : RE :=
  rseq [RE.wb,
    rwords ["see more", "show more", "more", "continue", "next", "show rest",
            "show all", "display more"], RE.wb]

/-- `/\b(show.*rest|display.*rest|get.*rest|list.*rest)\b/` -/
def contRe2 : RE :=
  rseq [RE.wb,
    ralts [rpair "show" "rest", rpair "display" "rest", rpair "get" "rest",
           rpair "list" "rest"], RE.wb]

/-- `/\b(show.*remaining|display.*remaining|get.*remaining)\b/` -/
def contRe3 : RE :=
  rseq [RE.wb,
    ralts [rpair "show" "remaining", rpair "display" "remaining",
           rpair "get" "remaining"], RE.wb]

/-- `/\b(more.*result|more.*ticket|more.*data)\b/` -/
def contRe4 : RE :=
  rseq [RE.wb,
    ralts [rpair "more" "result", rpair "more" "ticket", rpair "more" "data"],
    RE.wb]

/-- `/\b(continue.*list|continue.*show)\b/` -/
def contRe5 : RE :=
  rseq [RE.wb, ralts [rpair "continue" "list", rpair "continue" "show"], RE.wb]

/-- The `continuationPatterns` array. -/
def continuationPatterns : List RE :=
  [contRe1, contRe2, contRe3, contRe4, contRe5]

/-- `continuationPatterns.some(p => p.test(lowerMessage))` -/
def isContinuationMsg (lowerMessage : String) : Bool :=
  continuationPatterns.any (fun r => reTest r lowerMessage)

/-- `\s*` -/
def rws : RE := RE.many wsCls

/-- `(a\s+)?` -/
def rOptAspace : String → RE := fun w =>
  RE.opt (rseq [rlit w, RE.cls wsCls, RE.many wsCls])

/-- `(ticketid|ticket id)` and variants. -/
def rFieldAlt (a b : String) : RE := rwords [a, b]

/-- `/\bexplain.*\b(for me|to me)?\s*(what is|what's)\s*(a\s+)?(ticketid|ticket id)\b/i` -/
def fieldRe1 : RE :=
  rseq [RE.wb, rlit "explain", RE.many dotCls, RE.wb,
    RE.opt (rwords ["for me", "to me"]), rws, rwords ["what is", "what\x27s"],
    rws, rOptAspace "a", rFieldAlt "ticketid" "ticket id", RE.wb]

/-- `/\bwhat is\s*(a\s+)?(ticketid|ticket id)\b/i` -/
def fieldRe2 : RE :=
  rseq [RE.wb, rlit "what is", rws, rOptAspace "a",
    rFieldAlt "ticketid" "ticket id", RE.wb]

/-- `/\btell me about\s*(the\s+)?(ticketid|ticket id)\b/i` -/
def fieldRe3 : RE :=
  rseq [RE.wb, rlit "tell me about", rws, rOptAspace "the",
    rFieldAlt "ticketid" "ticket id", RE.wb]

/-- `/\bexplain.*\b(ticketid|ticket id)\b/i` -/
def fieldRe4 : RE :=
  rseq [RE.wb, rlit "explain", RE.many dotCls, RE.wb,
    rFieldAlt "ticketid" "ticket id", RE.wb]

/-- `/\b(ticketid|ticket id)\s*explain\b/i` -/
def fieldRe5 : RE :=
  rseq [RE.wb, rFieldAlt "ticketid" "ticket id", rws, rlit "explain", RE.wb]

/-- The `specificFieldPatterns` array. -/
def specificFieldPatterns : List RE :=
  [fieldRe1, fieldRe2, fieldRe3, fieldRe4, fieldRe5]

/-- `/\bwhat is\s*(a\s+)?(ticketnumber|ticket number)\b/i` -/
def ticketNumberRe : RE :=
  rseq [RE.wb, rlit "what is", rws, rOptAspace "a",
    rFieldAlt "ticketnumber" "ticket number", RE.wb]

/-- `/\bwhat is\s*(a\s+)?(customerid|customer id)\b/i` -/
def customerIdRe : RE :=
  rseq [RE.wb, rlit "what is", rws, rOptAspace "a",
    rFieldAlt "customerid" "customer id", RE.wb]

/-- `/\b(explain|how does|how do|describe)\b.*\b(structure|data|database|work|system)\b/` -/
def genRe1 : RE :=
  rseq [RE.wb, rwords ["explain", "how does", "how do", "describe"], RE.wb,
    RE.many dotCls, RE.wb,
    rwords ["structure", "data", "database", "work", "system"], RE.wb]

/-- `/\bshow me.*\b(structure|schema|format|fields)\b/` -/
def genRe2 : RE :=
  rseq [RE.wb, rlit "show me", RE.many dotCls, RE.wb,
    rwords ["structure", "schema", "format", "fields"], RE.wb]

/-- `/\bhow.*\b(organize|structure|store|data|work)\b/` -/
def genRe3 : RE :=
  rseq [RE.wb, rlit "how", RE.many dotCls, RE.wb,
    rwords ["organize", "structure", "store", "data", "work"], RE.wb]

/-- `/\bcan you.*\b(explain|describe|tell|show)\b.*\b(structure|schema|field)\b/` -/
def genRe4 : RE :=
  rseq [RE.wb, rlit "can you", RE.many dotCls, RE.wb,
    rwords ["explain", "describe", "tell", "show"], RE.wb, RE.many dotCls,
    RE.wb, rwords ["structure", "schema", "field"], RE.wb]

/-- The `generalExplanationPatterns` array. -/
def generalExplanationPatterns : List RE :=
  [genRe1, genRe2, genRe3, genRe4]

/-- `/^(hi|hello|hey|good morning|good afternoon|good evening)$/i` -/
def greetingRe : RE :=
  rwords ["hi", "hello", "hey", "good morning", "good afternoon",
          "good evening"]

/-- `/\b(summarize|summary)\b.*\b(ticket|conversation)\b/i` -/
def summarizeRe : RE :=
  rseq [RE.wb, rwords ["summarize", "summary"], RE.wb, RE.many dotCls, RE.wb,
    rwords ["ticket", "conversation"], RE.wb]

/-- `/\b(list|show|get|find|search|display)\b.*\b(all|ticket|id|customer|email)\b/` -/
def dataRe1 : RE :=
  rseq [RE.wb, rwords ["list", "show", "get", "find", "search", "display"],
    RE.wb, RE.many dotCls, RE.wb,
    rwords ["all", "ticket", "id", "customer", "email"], RE.wb]

/-- `/\ball\b.*\b(ticket|id|customer)\b/` -/
def dataRe2 : RE :=
  rseq [RE.wb, rlit "all", RE.wb, RE.many dotCls, RE.wb,
    rwords ["ticket", "id", "customer"], RE.wb]

/-- `/\bticket.*\b(id|number|list)\b/` -/
def dataRe3 : RE :=
  rseq [RE.wb, rlit "ticket", RE.many dotCls, RE.wb,
    rwords ["id", "number", "list"], RE.wb]

/-- `/\bhow many\b.*\b(ticket|customer)\b/` -/
def dataRe4 : RE :=
  rseq [RE.wb, rlit "how many", RE.wb, RE.many dotCls, RE.wb,
    rwords ["ticket", "customer"], RE.wb]

/-- `/\bcan you.*\b(list|show|find)\b.*\b(ticket|customer|data)\b/` -/
def dataRe5 : RE :=
  rseq [RE.wb, rlit "can you", RE.many dotCls, RE.wb,
    rwords ["list", "show", "find"], RE.wb, RE.many dotCls, RE.wb,
    rwords ["ticket", "customer", "data"], RE.wb]

/-- The `dataRequestPatterns` array. -/
def dataRequestPatterns : List RE :=
  [dataRe1, dataRe2, dataRe3, dataRe4, dataRe5]

/-- `/ticket.*id|list.*ticket.*id|all.*ticket.*id/i` (generateQueryInstruction). -/
def qiTicketIdRe : RE :=
  ralts [rpair "ticket" "id",
    rseq [rlit "list", RE.many dotCls, rlit "ticket", RE.many dotCls, rlit "id"],
    rseq [rlit "all", RE.many dotCls, rlit "ticket", RE.many dotCls, rlit "id"]]

/-- `/customer|email/i` -/
def qiCustomerRe : RE := rwords ["customer", "email"]

/-- `/open.*ticket/i` -/
def qiOpenRe : RE := rpair "open" "ticket"

/-- `/closed.*ticket/i` -/
def qiClosedRe : RE := rpair "closed" "ticket"

/-- `/\b(more|next|continue|show|list|see)\b/` (intelligentFallback). -/
def fbContRe : RE :=
  rseq [RE.wb, rwords ["more", "next", "continue", "show", "list", "see"],
    RE.wb]

/-- `/\b(what|how|explain|help|describe|tell|structure|schema|field|database|work)\b/` -/
def fbExplainRe : RE :=
  rseq [RE.wb,
    rwords ["what", "how", "explain", "help", "describe", "tell", "structure",
            "schema", "field", "database", "work"], RE.wb]

/-- `/\b(list|show|find|get|search|display|all|tickets?)\b/` -/
def fbDataRe : RE :=
  rseq [RE.wb,
    ralts [rlit "list", rlit "show", rlit "find", rlit "get", rlit "search",
           rlit "display", rlit "all",
           RE.seq (rlit "ticket") (RE.opt (RE.lit 's'))], RE.wb]

/-! ## The email regex of the query planner

`/([a-zA-Z0-9._%+-]+@[a-zA-Z0-9.-]+\.[a-zA-Z]{2,})/` with JS `String.match`
semantics: leftmost match; the local part `[...]+` is a maximal run (it
cannot contain `@`); the domain `[a-zA-Z0-9.-]+` is greedy, backtracking to
the last dot that is followed by at least two letters. -/

/-- Local-part characters `[a-zA-Z0-9._%+-]`. -/
def isLocalChar (c : Char) : Bool :=
  c.isAlphanum || c == '.' || c == '_' || c == '%' || c == '+' || c == '-'

/-- Domain characters `[a-zA-Z0-9.-]`. -/
def isDomainChar (c : Char) : Bool :=
  c.isAlphanum || c == '.' || c == '-'

/-- Split a maximal domain run at the last dot followed by at least two
letters (the TLD taken greedily), as regex backtracking would. -/
def lastDotSplit : List Char → Option (List Char × List Char)
  | [] => none
  | c :: cs =>
    match lastDotSplit cs with
    | some (pre, tld) => some (c :: pre, tld)
    | none =>
      if c == '.' then
        let run := cs.takeWhile (fun d => d.isAlpha)
        if 2 ≤ run.length then some ([], run) else none
      else none

/-- Try to match the email regex at the current position. -/
def emailMatchAt (l : List Char) : Option String :=
  let localPart := l.takeWhile isLocalChar
  let rest := l.dropWhile isLocalChar
  if localPart.isEmpty then none
  else
    match rest with
    | '@' :: r2 =>
      let dom := r2.takeWhile isDomainChar
      match lastDotSplit dom with
      | some (pre, tld) =>
        some (String.mk (localPart ++ '@' :: (pre ++ '.' :: tld)))
      | none => none
    | _ => none

/-- `userMessage.match(emailRegex)`: the leftmost match, if any. -/
def emailMatch : List Char → Option String
  | [] => none
  | c :: cs =>
    match emailMatchAt (c :: cs) with
    | some m => some m
    | none => emailMatch cs

/-! ## Data model: query plans and ticket records -/

/-- A match condition on a store field path.  The `whereJs` constructor
represents arbitrary code-evaluation operators (MongoDB `$where`), which the
query planner's allow-list (`allowedCond`) excludes; the planner only ever
builds equalities and `$in` lists. -/
inductive MongoCond where
  | eqStr : String → MongoCond
  | eqNat : Nat → MongoCond
  | inStrs : List String → MongoCond
  | whereJs : String → MongoCond
deriving DecidableEq

/-- The operator allow-list: plain equality and `$in`, never `$where`. -/
def allowedCond : MongoCond → Bool
  | .eqStr _ => true
  | .eqNat _ => true
  | .inStrs _ => true
  | .whereJs _ => false

/-- A filter: field paths mapped to conditions. -/
abbrev QFilter := List (String × MongoCond)

/-- Every condition of the filter is allow-listed. -/
def allowedFilter (f : QFilter) : Bool :=
  f.all (fun pc => allowedCond pc.2)

/-- A sort directive (field path, direction; `-1` = descending). -/
structure SortSpec where
  field : String
  dir : Int
deriving DecidableEq

/-- Query options (`limit`, `sort`, optional `projection`). -/
structure QOptions where
  limit : Nat
  sort : Option SortSpec := none
  projection : Option (List (String × Nat)) := none
deriving DecidableEq

/-- A query plan as built by `SuperIntelligentDatabaseQueryAI`. -/
structure QueryPlan where
  filter : QFilter
  options : QOptions
  explanation : Option String := none
deriving DecidableEq

/-- The `data.ticket` header of a stored conversation record, as read by the
coordinator's response formatting (`r.data?.ticket`). -/
structure TicketInfo where
  TicketID : Nat
  TicketNumber : Option String := none
  Title : Option String := none
  CustomerID : Option String := none
  State : Option String := none
  StateType : Option String := none
  Created : Nat := 0
deriving DecidableEq

/-- A record returned by the store (`data.ticket` may be absent). -/
structure TRec where
  ticket : Option TicketInfo := none
deriving DecidableEq

/-- The external data store collaborator:
`findConversations(filter, options)` may throw (`Except.error`). -/
abbrev DataStore := QFilter → QOptions → Except String (List TRec)

/-! ## Query planner (`SuperIntelligentDatabaseQueryAI.buildDirectQuery`,
`createSimpleQuery`) -/

/-- Plan for "user wants ticket IDs": projection to the id field, limit 1000. -/
def ticketIdPlan : QueryPlan :=
  { filter := []
    options :=
      { projection := some [("data.ticket.TicketID", 1), ("_id", 0)]
        sort := some ⟨"data.ticket.Created", -1⟩
        limit := 1000 }
    explanation := some "Get all tickets and return only TicketID values" }

/-- Plan for "user wants all tickets": empty filter, limit 100. -/
def allTicketsPlan : QueryPlan :=
  { filter := []
    options := { sort := some ⟨"data.ticket.Created", -1⟩, limit := 100 }
    explanation := some "Get all tickets with basic information" }

/-- Plan for a customer email search: `CustomerID` equality filter. -/
def emailPlan (email : String) : QueryPlan :=
  { filter := [("data.ticket.CustomerID", .eqStr email)]
    options := { sort := some ⟨"data.ticket.Created", -1⟩, limit := 100 }
    explanation := some ("Find tickets for customer " ++ email) }

/-- Plan for open tickets: `StateType ∈ {open, new, pending}`. -/
def openTicketsPlan : QueryPlan :=
  { filter := [("data.ticket.StateType", .inStrs ["open", "new", "pending"])]
    options := { sort := some ⟨"data.ticket.Created", -1⟩, limit := 100 }
    explanation := some "Find all open tickets" }

/-- The default plan of `createSimpleQuery`: empty filter, sort by creation
time descending, limit 50. -/
def simpleQueryPlan : QueryPlan :=
  { filter := []
    options := { sort := some ⟨"data.ticket.Created", -1⟩, limit := 50 }
    explanation := some "Simple query to get recent tickets" }

/-- The hard-wired corrected plan of `correctFailedQuery`. -/
def correctedQueryPlan : QueryPlan :=
  { filter := []
    options := { limit := 100, sort := some ⟨"data.ticket.Created", -1⟩ } }

/-- `buildDirectQuery(queryInstruction, userMessage)`: the ordered direct
pattern table; returns `none` when no pattern matches. -/
def buildDirectQuery (queryInstruction userMessage : String) :
    Option QueryPlan :=
  let lowerInstruction := jsToLower queryInstruction
  let lowerMessage := jsToLower userMessage
  if (jsIncludes lowerInstruction "ticket" && jsIncludes lowerInstruction "id")
      || (jsIncludes lowerMessage "ticketid"
          || jsIncludes lowerMessage "ticket id") then
    some ticketIdPlan
  else if jsIncludes lowerInstruction "all"
      && jsIncludes lowerInstruction "ticket" then
    some allTicketsPlan
  else
    match emailMatch userMessage.data with
    | some email => some (emailPlan email)
    | none =>
      if jsIncludes lowerMessage "open" && jsIncludes lowerMessage "ticket" then
        some openTicketsPlan
      else
        none

/-- The plan the planner settles on: first direct pattern match, otherwise
the default plan (`buildPerfectQuery` falling through to
`createSimpleQuery`). -/
def plannedQuery (queryInstruction userMessage : String) : QueryPlan :=
  match buildDirectQuery queryInstruction userMessage with
  | some p => p
  | none => simpleQueryPlan

/-! ## Query executor (`executeQuery`, `createFallbackQuery`) -/

/-- The result object of one execution attempt.  `Option` fields model JS
properties that are present only on some paths. -/
structure QueryResult where
  success : Bool
  query : Option QueryPlan := none
  results : Option (List TRec) := none
  fallbackResults : Option (List TRec) := none
  resultCount : Nat
  explanation : String
  error : Option String := none
  needsCorrection : Bool := false
deriving DecidableEq

/-- The options of the ultimate fallback call: `{ limit: 20 }`. -/
def fallbackOptions : QOptions := { limit := 20 }

/-- `createFallbackQuery`: run the simplest possible query (empty filter,
limit 20); on success the result still carries `success: false` and
`needsCorrection: true`; if even this fails, return an empty result set. -/
def createFallbackQuery (store : DataStore) : QueryResult :=
  match store [] fallbackOptions with
  | .ok results =>
    { success := false
      fallbackResults := some results
      resultCount := results.length
      explanation := "Used fallback query - original query failed"
      needsCorrection := true }
  | .error e =>
    { success := false
      error := some e
      fallbackResults := some []
      resultCount := 0
      explanation := "Database connection completely failed"
      needsCorrection := true }

/-- `executeQuery`: attempt the plan; any store exception is caught and
routed to the ultimate fallback. -/
def executeQuery (store : DataStore) (queryPlan : QueryPlan) : QueryResult :=
  match store queryPlan.filter queryPlan.options with
  | .ok results =>
    { success := true
      query := some queryPlan
      results := some results
      resultCount := results.length
      explanation := jsOrStr queryPlan.explanation "Query executed successfully" }
  | .error _ => createFallbackQuery store

/-- `createSimpleQuery`: execute the default plan. -/
def createSimpleQuery (store : DataStore) : QueryResult :=
  executeQuery store simpleQueryPlan

/-- `buildPerfectQuery`: direct pattern match first, else the simple
fallback query. -/
def buildPerfectQuery (store : DataStore) (queryInstruction userMessage : String) :
    QueryResult :=
  match buildDirectQuery queryInstruction userMessage with
  | some directQuery => executeQuery store directQuery
  | none => createSimpleQuery store

/-- `correctFailedQuery`: replace the failing query by the hard-wired
simplified plan and re-execute. -/
def correctFailedQuery (store : DataStore) : QueryResult :=
  executeQuery store correctedQueryPlan

/-! ## Decisions (output of the intent router) -/

/-- Entity filters an intent may carry (`interaction.intent?.filters`); the
decisions produced in this codebase never set them, but `updateContext`
reads them, so they are part of the shape. -/
structure DecisionFilters where
  customer : Option String := none
  ticketNumber : Option String := none
  queue : Option String := none
deriving DecidableEq

/-- Payload of a `continue_query` decision. -/
structure ContinuationData where
  lastResults : Option (List TRec) := none
  lastQuery : Option QueryPlan := none
  offset : Nat
deriving DecidableEq

/-- A decision object as produced by `SuperIntelligentConversationalAI`. -/
structure Decision where
  action : String
  reasoning : String := ""
  needsData : Bool := false
  conversationResponse : Option String := none
  queryInstruction : Option String := none
  summaryInstruction : Option String := none
  continuationData : Option ContinuationData := none
  filters : Option DecisionFilters := none
  confidence : Rat := 0
deriving DecidableEq

/-! ## Conversation memory (`src/services/conversationMemory.js`) -/

/-- The `context` sub-object of a conversation (tracked entities and search
patterns). -/
structure CtxInner where
  lastCustomer : Option String := none
  lastTicketNumber : Option String := none
  lastQueue : Option String := none
  searchPatterns : List String := []
deriving DecidableEq

/-- One stored history entry (the fields `addInteraction` copies). -/
structure HistEntry where
  timestamp : Nat
  userMessage : String
  intent : Decision
  response : String
  queryExecuted : Option QueryPlan
  resultsFound : Nat
deriving DecidableEq

/-- The interaction record the coordinator hands to `addInteraction`. -/
structure Interaction where
  userMessage : String
  intent : Decision
  response : String
  queryExecuted : Option QueryPlan := none
  resultsFound : Nat := 0
  timestamp : Nat := 0
  success : Bool := true
  intelligenceLevel : String := "Super"
deriving DecidableEq

/-- A per-session conversation object.  The first four fields are created by
`getContext`; the remaining `Option` fields are properties the coordinator
attaches later (`conversationContext.lastResults = ...` etc.). -/
structure Conv where
  history : List HistEntry := []
  context : CtxInner := {}
  lastActivity : Nat := 0
  clarificationState : Option String := none
  lastResults : Option (List TRec) := none
  lastQuery : Option QueryPlan := none
  lastOffset : Option Nat := none
  lastAction : Option String := none
  lastIntelligenceLevel : Option String := none
deriving DecidableEq

/-- The session store: a map from session ids to conversations. -/
abbrev MemStore := String → Option Conv

/-- The empty session store. -/
def emptyMem : MemStore := fun _ => none

/-- Point update of the session store. -/
def memSet (m : MemStore) (sessionId : String) (c : Conv) : MemStore :=
  fun x => if x = sessionId then some c else m x

/-- `getContext(sessionId)`: get or create the conversation, refreshing
`lastActivity`; returns the conversation together with the updated store
(the JS function returns a live reference into the map). -/
def getContextPair (m : MemStore) (sessionId : String) (now : Nat) :
    Conv × MemStore :=
  match m sessionId with
  | none =>
    let c : Conv := { lastActivity := now }
    (c, memSet m sessionId c)
  | some c =>
    let c2 := { c with lastActivity := now }
    (c2, memSet m sessionId c2)

/-- `maxHistoryLength = 10`. -/
def maxHistoryLength : Nat := 10

/-- JS `if (o) cur = o` for a string-valued property (empty is falsy). -/
def updateIfTruthy (o : Option String) (cur : Option String) : Option String :=
  match o with
  | some s => if s = "" then cur else some s
  | none => cur

/-- `updateContext(context, interaction)`: track entities from
`intent.filters` and cap `searchPatterns` at 5. -/
def updateContext (c : Conv) (interaction : Interaction) : Conv :=
  let inner := c.context
  let inner :=
    match interaction.intent.filters with
    | some f =>
      { inner with
        lastCustomer := updateIfTruthy f.customer inner.lastCustomer
        lastTicketNumber := updateIfTruthy f.ticketNumber inner.lastTicketNumber
        lastQueue := updateIfTruthy f.queue inner.lastQueue }
    | none => inner
  let inner :=
    if interaction.intent.action ≠ "" then
      let sp := inner.searchPatterns ++ [interaction.intent.action]
      { inner with searchPatterns := if 5 < sp.length then sp.tail else sp }
    else inner
  { c with context := inner }

/-- The history entry `addInteraction` pushes. -/
def histEntryOf (interaction : Interaction) (now : Nat) : HistEntry :=
  { timestamp := now
    userMessage := interaction.userMessage
    intent := interaction.intent
    response := interaction.response
    queryExecuted := interaction.queryExecuted
    resultsFound := interaction.resultsFound }

/-- `addInteraction(sessionId, interaction)`: push a history entry, evict the
oldest when the capacity of 10 is exceeded, then update tracked context. -/
def addInteraction (m : MemStore) (sessionId : String)
    (interaction : Interaction) (now : Nat) : MemStore :=
  let (c, m1) := getContextPair m sessionId now
  let h1 := c.history ++ [histEntryOf interaction now]
  let h2 := if maxHistoryLength < h1.length then h1.tail else h1
  let c2 := updateContext { c with history := h2 } interaction
  memSet m1 sessionId c2

/-! ## Intent router (`src/ai/SuperIntelligentConversationalAI.js`) -/

/-- Does the conversation hold non-empty cached results?
(JS `conversationContext.lastResults && conversationContext.lastResults.length > 0`.) -/
def hasLastResults (c : Conv) : Bool :=
  match c.lastResults with
  | some rs => 0 < rs.length
  | none => false

/-- Guidance message returned when a continuation is requested but no cached
results exist. -/
def noPrevResultsText : String :=
  "I don\x27t have any previous results to show more of. Please ask me to find some data first, like \x27list all tickets\x27 or \x27show open tickets\x27."

/-- Greeting response text. -/
def greetingText : String :=
  "Hello! I\x27m your super intelligent ticket database assistant. I can help you find tickets, search by customer, analyze data, or explain the system. What would you like to do?"

/-- Content of `generateSpecificFieldExplanation` for a known field.  The
markdown bodies are abridged to their headline; no claim depends on this
prose. -/
def fieldExplanationText (fieldName : String) : String :=
  if fieldName = "TicketID" then
    "🎫 **TicketID - Primary Ticket Identifier**"
  else if fieldName = "TicketNumber" then
    "🎟️ **TicketNumber - Customer-Facing Identifier**"
  else if fieldName = "CustomerID" then
    "👤 **CustomerID - Customer Email Address**"
  else
    "I don\x27t have specific information about the " ++ fieldName ++
      " field. Please ask me about TicketID, TicketNumber, or CustomerID for detailed explanations."

/-- `generateDatabaseStructureExplanation()` (prose abridged). -/
def databaseStructureText : String :=
  "🗄️ **Your Database Structure - Complete Explanation**"

/-- `generateCapabilityExplanation()` (prose abridged). -/
def capabilityText : String :=
  "🤖 **I\x27m your Super Intelligent Ticket Database Assistant!**"

/-- The `continue_query` decision built when a continuation pattern matches
and cached results exist: resume offset is `context.lastOffset || 20`. -/
def continueQueryDecision (c : Conv) : Decision :=
  { action := "continue_query"
    reasoning := "User wants to see more results from previous query"
    needsData := true
    queryInstruction := some "Continue showing results from previous query"
    continuationData := some
      { lastResults := c.lastResults
        lastQuery := c.lastQuery
        offset := jsOrNat c.lastOffset 20 }
    confidence := (98 : Rat) / 100 }

/-- The `chat` decision built when a continuation pattern matches but no
cached results exist. -/
def noPrevResultsDecision : Decision :=
  { action := "chat"
    reasoning := "User asked for more but no previous results available"
    needsData := false
    conversationResponse := some noPrevResultsText
    confidence := (9 : Rat) / 10 }

/-- `explain` decision for a specific field. -/
def explainFieldDecision (fieldName : String) : Decision :=
  { action := "explain"
    reasoning := "User requesting specific explanation of " ++ fieldName ++ " field"
    needsData := false
    conversationResponse := some (fieldExplanationText fieldName)
    confidence := (95 : Rat) / 100 }

/-- `explain` decision for general structure questions. -/
def generalExplainDecision : Decision :=
  { action := "explain"
    reasoning := "User requesting general explanation/description of system"
    needsData := false
    conversationResponse := some databaseStructureText
    confidence := (95 : Rat) / 100 }

/-- `chat` decision for a greeting. -/
def greetingDecision : Decision :=
  { action := "chat"
    reasoning := "Simple greeting detected"
    needsData := false
    conversationResponse := some greetingText
    confidence := (95 : Rat) / 100 }

/-- `summarize` decision. -/
def summarizeDecision (message : String) : Decision :=
  { action := "summarize"
    reasoning := "Summarization request detected"
    needsData := true
    summaryInstruction := some ("Summarize based on request: " ++ message)
    confidence := (9 : Rat) / 10 }

/-- `generateQueryInstruction(lowerMessage)`. -/
def generateQueryInstruction (lowerMessage : String) : String :=
  if reTest qiTicketIdRe lowerMessage then
    "Get all tickets and return only their TicketID values"
  else if reTest qiCustomerRe lowerMessage then
    "Get all unique customer emails from tickets"
  else if reTest qiOpenRe lowerMessage then
    "Find all open tickets"
  else if reTest qiClosedRe lowerMessage then
    "Find all closed tickets"
  else
    "Get all tickets with basic information"

/-- `query` decision for a detected data request. -/
def dataRequestDecision (lowerMessage : String) : Decision :=
  { action := "query"
    reasoning := "Data request detected"
    needsData := true
    queryInstruction := some (generateQueryInstruction lowerMessage)
    confidence := (9 : Rat) / 10 }

/-- `detectObviousPatterns(message, conversationContext)`: the ordered
pattern checks; continuation has top priority. -/
def detectObviousPatterns (message : String) (conversationContext : Conv) :
    Option Decision :=
  let lowerMessage := jsToLower message
  if isContinuationMsg lowerMessage then
    if hasLastResults conversationContext then
      some (continueQueryDecision conversationContext)
    else
      some noPrevResultsDecision
  else if specificFieldPatterns.any (fun r => reTest r lowerMessage) then
    some (explainFieldDecision "TicketID")
  else if reTest ticketNumberRe lowerMessage then
    some (explainFieldDecision "TicketNumber")
  else if reTest customerIdRe lowerMessage then
    some (explainFieldDecision "CustomerID")
  else if generalExplanationPatterns.any (fun r => reTest r lowerMessage) then
    some generalExplainDecision
  else if reTestFull greetingRe (jsTrim lowerMessage) then
    some greetingDecision
  else if reTest summarizeRe lowerMessage then
    some (summarizeDecision message)
  else if dataRequestPatterns.any (fun r => reTest r lowerMessage) then
    some (dataRequestDecision lowerMessage)
  else
    none

/-- Context-aware default chat response of `intelligentFallback`. -/
def fallbackChatText (c : Conv) : String :=
  if hasLastResults c then
    "I\x27m your super intelligent ticket database assistant. I can help you find tickets, search by customer, analyze data, or explain the system. \n\nI still have "
      ++ toString (jsOrList c.lastResults).length
      ++ " results from your last query if you\x27d like to see more. What would you like to do?"
  else
    "I\x27m your super intelligent ticket database assistant. I can help you find tickets, search by customer, analyze data, or explain the system. What would you like to do?"

/-- `intelligentFallback(message, conversationContext)`. -/
def intelligentFallback (message : String) (conversationContext : Conv) :
    Decision :=
  let lowerMessage := jsToLower message
  if reTest fbContRe lowerMessage && hasLastResults conversationContext then
    { action := "continue_query"
      reasoning := "Fallback detected possible continuation request with available previous results"
      needsData := true
      queryInstruction := some "Continue showing results from previous query"
      continuationData := some
        { lastResults := conversationContext.lastResults
          lastQuery := conversationContext.lastQuery
          offset := jsOrNat conversationContext.lastOffset 20 }
      confidence := (7 : Rat) / 10 }
  else if reTest fbExplainRe lowerMessage then
    { action := "explain"
      reasoning := "Fallback detected explanation keywords"
      needsData := false
      conversationResponse := some capabilityText
      confidence := (7 : Rat) / 10 }
  else if reTest fbDataRe lowerMessage then
    { action := "query"
      reasoning := "Fallback detected data-related keywords"
      needsData := true
      queryInstruction := some "Get all tickets with basic information"
      confidence := (6 : Rat) / 10 }
  else
    { action := "chat"
      reasoning := "Fallback default to conversation with context awareness"
      needsData := false
      conversationResponse := some (fallbackChatText conversationContext)
      confidence := (5 : Rat) / 10 }

/-- `analyzeUserRequest`: obvious patterns first, otherwise the deterministic
fallback (in this implementation no language-model call is made). -/
def analyzeUserRequest (message : String) (conversationContext : Conv) :
    Decision :=
  match detectObviousPatterns message conversationContext with
  | some d => d
  | none => intelligentFallback message conversationContext

/-! ## Coordinator (`src/core/SuperIntelligentCoordinator.js`, the
"memory continuation" class) -/

/-- The pagination object attached to a continuation response. -/
structure Pagination where
  currentStart : Nat
  currentEnd : Nat
  total : Nat
  remaining : Nat
  hasMore : Bool
deriving DecidableEq

/-- A `processingResults.data` object.  `dtype` is the JS `type` property
(`type` is a Lean keyword).  `displayed`, `displayedIds` and `trailer` are
ghost fields recording which records/ids the response text renders and which
continuation trailer it ends with; they are not separate JS properties but a
specification-level view of the `response` string built right next to them. -/
structure ProcData where
  dtype : String
  response : String
  resultCount : Option Nat := none
  success : Option Bool := none
  error : Option String := none
  query : Option QueryPlan := none
  results : Option (List TRec) := none
  ticketCount : Option Nat := none
  pagination : Option Pagination := none
  displayed : List TRec := []
  displayedIds : List Nat := []
  trailer : String := ""
deriving DecidableEq

/-- `maxRetries = 3`. -/
def maxRetries : Nat := 3

/-- `wantsTicketIds` as computed in the coordinator. -/
def wantsTicketIdsOf (userMessage : String) : Bool :=
  let lm := jsToLower userMessage
  jsIncludes lm "ticketid" || jsIncludes lm "ticket id"
    || (jsIncludes lm "list" && jsIncludes lm "id")

/-- `results.map(r => r.data?.ticket?.TicketID).filter(id => id)`
(a `TicketID` of `0` is falsy in JS and filtered out). -/
def collectTicketIds (results : List TRec) : List Nat :=
  results.filterMap (fun r =>
    r.ticket.bind (fun t => if t.TicketID = 0 then none else some t.TicketID))

/-- One formatted ticket line of a general listing. -/
def renderTicketLine (n : Nat) (t : TicketInfo) : String :=
  toString n ++ ". **Ticket " ++ toString t.TicketID ++ "** ("
    ++ jsOrStr t.TicketNumber "No Number" ++ ")\n   📝 "
    ++ jsOrStr t.Title "No Title" ++ "\n   📧 "
    ++ jsOrStr t.CustomerID "No Customer" ++ "\n   ✅ "
    ++ jsOrStr t.State "Unknown Status" ++ "\n\n"

/-- Render a run of ticket lines; the counter advances for every record, a
line is printed only when the record has a ticket (JS `forEach` + `if`). -/
def renderTicketLines (n : Nat) : List TRec → String
  | [] => ""
  | r :: rest =>
    (match r.ticket with
     | some t => renderTicketLine n t
     | none => "") ++ renderTicketLines (n + 1) rest

/-- "No results found" text. -/
def noResultsText : String :=
  "No results found in the database. The database might be empty or your search criteria didn\x27t match any records."

/-- `createContinuationResponse(results, startIndex, totalResults,
userMessage)`. -/
def createContinuationResponse (results : List TRec)
    (startIndex totalResults : Nat) (userMessage : String) : ProcData :=
  let endIndex := startIndex + results.length
  let header := "**Continuing results (" ++ toString (startIndex + 1) ++ "-"
    ++ toString endIndex ++ " of " ++ toString totalResults ++ " total):**\n\n"
  let ticketIds := collectTicketIds results
  let body :=
    if wantsTicketIdsOf userMessage then
      if 0 < ticketIds.length then
        "**More Ticket IDs (" ++ toString (startIndex + 1) ++ "-"
          ++ toString endIndex ++ " of " ++ toString totalResults
          ++ " total):**\n\n"
          ++ String.intercalate ", " (ticketIds.map toString) ++ "\n\n"
      else header
    else header ++ renderTicketLines (startIndex + 1) results
  let remaining := totalResults - endIndex
  let trailer :=
    if 0 < remaining then
      "**" ++ toString remaining
        ++ " more results available.**\nSay \"see more\" to continue, or ask me to filter or search the results."
    else
      "**That\x27s all " ++ toString totalResults
        ++ " results!**\nWould you like me to help you search or filter these tickets?"
  { dtype := "continuation_results"
    response := body ++ trailer
    resultCount := some results.length
    success := some true
    pagination := some
      { currentStart := startIndex + 1
        currentEnd := endIndex
        total := totalResults
        remaining := remaining
        hasMore := 0 < remaining }
    displayed := results
    displayedIds := if wantsTicketIdsOf userMessage then ticketIds else []
    trailer := trailer }

/-- `executeContinuation(decision, userMessage, conversationContext)`.
Accessing a missing `continuationData` would raise a `TypeError` in JS, so
the model returns `Except.error` there (in this codebase every
`continue_query` decision carries the payload).  On showing a batch the
session's stored offset advances to `currentOffset + nextBatch.length`. -/
def executeContinuation (decision : Decision) (userMessage : String)
    (conversationContext : Conv) : Except String (ProcData × Conv) :=
  match decision.continuationData with
  | none => .error "Cannot read properties of undefined"
  | some continuationData =>
    let lastResults := jsOrList continuationData.lastResults
    let currentOffset := natOr continuationData.offset 20
    if lastResults.length = 0 then
      .ok ({ dtype := "error"
             response := "I don\x27t have any previous results to continue from. Please ask me to find some data first."
             success := some false }, conversationContext)
    else
      let pageSize := 20
      let remainingResults := lastResults.drop currentOffset
      let nextBatch := remainingResults.take pageSize
      if nextBatch.length = 0 then
        .ok ({ dtype := "continuation_results"
               response := "You\x27ve seen all " ++ toString lastResults.length
                 ++ " results! There are no more tickets to display."
               resultCount := some 0
               success := some true }, conversationContext)
      else
        .ok (createContinuationResponse nextBatch currentOffset
               lastResults.length userMessage,
             { conversationContext with
                lastOffset := some (currentOffset + nextBatch.length) })

/-- `createDirectQueryResponse(queryResult, userMessage)`: identifier-only
listings show the first 50 ids, general listings the first 20 records, each
with a "see more" trailer when more are available. -/
def createDirectQueryResponse (queryResult : QueryResult)
    (userMessage : String) : ProcData :=
  let results := jsOrList queryResult.results
  let resultCount := natOr queryResult.resultCount results.length
  if resultCount = 0 then
    { dtype := "query_results"
      response := noResultsText
      resultCount := some 0
      success := some true }
  else
    let ticketIds := collectTicketIds results
    if wantsTicketIdsOf userMessage && 0 < ticketIds.length then
      let displayLimit := 50
      let visibleIds := ticketIds.take displayLimit
      let hasMore := displayLimit < ticketIds.length
      let trailer :=
        if hasMore then
          "\n\n**Showing first " ++ toString displayLimit ++ " of "
            ++ toString ticketIds.length ++ " total ticket IDs.**\n"
            ++ toString (ticketIds.length - displayLimit)
            ++ " more available - say \"see more\" to continue."
        else "\n\nWould you like details about any specific tickets?"
      { dtype := "query_results"
        response := "**All Ticket IDs (" ++ toString ticketIds.length
          ++ " total):**\n\n"
          ++ String.intercalate ", " (visibleIds.map toString) ++ trailer
        resultCount := some ticketIds.length
        query := queryResult.query
        success := some true
        displayedIds := visibleIds
        trailer := trailer }
    else
      let displayLimit := 20
      let visibleResults := results.take displayLimit
      let hasMore := displayLimit < results.length
      let trailer :=
        if hasMore then
          "**Showing first " ++ toString displayLimit ++ " of "
            ++ toString resultCount ++ " total results.**\n"
            ++ toString (resultCount - displayLimit)
            ++ " more available - say \"see more\" to continue."
        else ""
      { dtype := "query_results"
        response := "**Found " ++ toString resultCount ++ " result(s):**\n\n"
          ++ renderTicketLines 1 visibleResults ++ trailer
        resultCount := some resultCount
        query := queryResult.query
        success := some true
        displayed := visibleResults
        trailer := trailer }

/-- `createSimpleQueryResponse(queryResult, userMessage, wasFallback,
wasCorrected)`. -/
def createSimpleQueryResponse (queryResult : QueryResult)
    (userMessage : String) (wasFallback wasCorrected : Bool) : ProcData :=
  let results := jsOrList queryResult.results
  let resultCount := natOr queryResult.resultCount results.length
  if resultCount = 0 then
    { dtype := "query_results"
      response := noResultsText
      resultCount := some 0
      success := some true }
  else
    let lm := jsToLower userMessage
    let ticketIds := collectTicketIds results
    if (jsIncludes lm "ticketid" || jsIncludes lm "ticket id")
        && 0 < ticketIds.length then
      let pfx :=
        if wasFallback then "Using intelligent fallback, here are the "
        else if wasCorrected then "After intelligent correction, here are the "
        else "Here are all the "
      { dtype := "query_results"
        response := pfx ++ "**Ticket IDs (" ++ toString ticketIds.length
          ++ " total):**\n\n"
          ++ String.intercalate ", " (ticketIds.map toString)
          ++ "\n\nWould you like details about any specific tickets?"
        resultCount := some ticketIds.length
        success := some true
        displayedIds := ticketIds }
    else
      let body := "Found " ++ toString resultCount ++ " result(s):\n\n"
        ++ renderTicketLines 1 (results.take 10)
        ++ (if 10 < resultCount then
              "... and " ++ toString (resultCount - 10) ++ " more results."
            else "")
      let pfx :=
        if wasFallback then "Using intelligent fallback:\n\n"
        else if wasCorrected then "After intelligent correction:\n\n"
        else ""
      { dtype := "query_results"
        response := pfx ++ body
        resultCount := some resultCount
        success := some true
        displayed := results.take 10 }

/-- `handleQueryErrorIntelligently(queryResult, ..., retryCount)`: try the
hard-wired corrected query; else fall back to the fallback results carried
by the failed result; else an apology. -/
def handleQueryErrorIntelligently (store : DataStore)
    (queryResult : QueryResult) (userMessage : String) (retryCount : Nat) :
    ProcData :=
  let fallbackData :=
    match queryResult.fallbackResults with
    | some fr =>
      if 0 < fr.length then
        some (createSimpleQueryResponse
          { success := true, results := some fr, resultCount := fr.length
            explanation := "" } userMessage true false)
      else none
    | none => none
  if maxRetries ≤ retryCount then
    match fallbackData with
    | some d => d
    | none =>
      { dtype := "error"
        response := "I\x27ve tried multiple intelligent approaches but couldn\x27t execute your query. Please try rephrasing your request."
        success := some false }
  else
    let correctedResult := correctFailedQuery store
    if correctedResult.success then
      createSimpleQueryResponse correctedResult userMessage false true
    else
      match fallbackData with
      | some d => d
      | none =>
        { dtype := "error"
          response := "I couldn\x27t execute your query with super intelligence. Could you try rephrasing it?"
          success := some false }

/-- `executeSuperIntelligentQuery(queryInstruction, userMessage, ...)`.
On a successful query the coordinator caches the results in the session and
resets the stored pagination offset to 0.  The JS retry `catch` never fires
because the executor traps every store error, so the body is
exception-free. -/
def executeSuperIntelligentQuery (store : DataStore)
    (queryInstruction userMessage : String) (conversationContext : Conv)
    (retryCount : Nat) : ProcData × Conv :=
  let queryResult := buildPerfectQuery store queryInstruction userMessage
  if queryResult.success then
    (createDirectQueryResponse queryResult userMessage,
     { conversationContext with
        lastResults := queryResult.results
        lastQuery := queryResult.query
        lastOffset := some 0 })
  else
    (handleQueryErrorIntelligently store queryResult userMessage retryCount,
     conversationContext)

/-- Result of the external summarizer collaborator
(`FormatterSummarizerAI.createIntelligentSummary`), which may throw. -/
structure SummRes where
  success : Bool
  summary : String := ""
  ticketCount : Nat := 0

/-- The summarizer collaborator as a fallible function. -/
abbrev SummarizerFn := String → List TRec → String → Except String SummRes

/-- Maximal runs of digits, keeping those of length at least 7
(JS `userMessage.match(/\d{7,}/g)`), accumulator-style. -/
def digitRunsAux : List Char → List Char → List String
  | cur, [] => if 7 ≤ cur.length then [String.mk cur.reverse] else []
  | cur, c :: cs =>
    if c.isDigit then digitRunsAux (c :: cur) cs
    else
      (if 7 ≤ cur.length then [String.mk cur.reverse] else [])
        ++ digitRunsAux [] cs

/-- All `\d{7,}` matches of a string. -/
def digitRuns (s : String) : List String :=
  digitRunsAux [] s.data

/-- `executeSummarization(summaryInstruction, userMessage, ...)`: find the
tickets to summarize (explicit ids, else up to 3 cached results), then call
the summarizer, recovering from its failures. -/
def executeSummarization (store : DataStore) (sumAI : SummarizerFn)
    (summaryInstruction userMessage : String) (conversationContext : Conv) :
    ProcData :=
  let ticketIdMatches := digitRuns userMessage
  let ticketsToSummarize :=
    if ticketIdMatches ≠ [] then
      ticketIdMatches.foldl (fun acc idStr =>
        let ticketId := parseDigits idStr
        let queryResult := buildPerfectQuery store
          ("Find ticket with ID " ++ toString ticketId) userMessage
        if queryResult.success && 0 < (jsOrList queryResult.results).length
        then acc ++ jsOrList queryResult.results
        else acc) []
    else if hasLastResults conversationContext then
      (jsOrList conversationContext.lastResults).take 3
    else []
  if ticketsToSummarize.length = 0 then
    { dtype := "error"
      response := "I need to know which ticket(s) to summarize. Please provide a ticket ID or show some tickets first."
      success := some false }
  else
    match sumAI summaryInstruction ticketsToSummarize userMessage with
    | .ok summaryResult =>
      if summaryResult.success then
        { dtype := "summary"
          response := summaryResult.summary
          ticketCount := some summaryResult.ticketCount
          success := some true }
      else
        { dtype := "error"
          response := "I couldn\x27t generate the intelligent summary. Please try a different approach."
          success := some false }
    | .error e =>
      { dtype := "error"
        response := "I encountered an issue while creating the summary. Please try again."
        success := some false
        error := some e }

/-- `generateExplanationResponse()` (prose abridged). -/
def explanationResponseText : String :=
  "🤖 **I\x27m your Super Intelligent Ticket Database Assistant!** (full capability overview)"

/-- `generateFinalResponse(userMessage, processingResults, ...)`: pure
dispatch on the data type with canned fallbacks. -/
def generateFinalResponse (data : Option ProcData) : String :=
  match data with
  | some d =>
    if d.dtype = "query_results" then
      jsOrStr (some d.response)
        ("I found " ++ (match d.resultCount with
                        | some n => toString n
                        | none => "undefined") ++ " results.")
    else if d.dtype = "continuation_results" then
      jsOrStr (some d.response) "Here are more results from your previous query."
    else if d.dtype = "conversation" then d.response
    else if d.dtype = "summary" then d.response
    else if d.dtype = "error" then d.response
    else "I processed your request successfully. Let me know if you need anything else!"
  | none =>
    "I processed your request successfully. Let me know if you need anything else!"

/-- The response envelope returned by the coordinator.  `Option` fields model
JS properties that some paths omit: the success path builds
`{response, sessionId, processingTime, resultCount, intelligenceLevel}` with
no `success` property, the critical-error path builds
`{response, sessionId, error, success, intelligenceLevel}` with no
`resultCount`. -/
structure Envelope where
  response : String
  sessionId : String
  processingTime : Option Nat := none
  resultCount : Option Nat := none
  intelligenceLevel : Option String := none
  success : Option Bool := none
  error : Option String := none
deriving DecidableEq

/-- `handleCriticalError(error, message, sessionId)`. -/
def handleCriticalError (e sessionId : String) : Envelope :=
  { response := "I encountered a critical error while applying super intelligence: "
      ++ e ++ ". Please try again or rephrase your request."
    sessionId := sessionId
    error := some e
    success := some false
    intelligenceLevel := some "Super" }

/-- `updateConversationMemory(sessionId, userMessage, decision,
processingResults, finalResponse)`: append the interaction, then refresh the
context (`processingResults.success` is initialized to `true` and never
changed, so the stored success flag is always `true`). -/
def updateConversationMemory (m : MemStore) (sessionId userMessage : String)
    (decision : Decision) (data : Option ProcData) (finalResponse : String)
    (now : Nat) : MemStore :=
  let inter : Interaction :=
    { userMessage := userMessage
      intent := decision
      response := finalResponse
      queryExecuted := data.bind (fun d => d.query)
      resultsFound := jsOrNat (data.bind (fun d => d.resultCount)) 0
      timestamp := now
      success := true
      intelligenceLevel := "Super" }
  let m1 := addInteraction m sessionId inter now
  let (context, m2) := getContextPair m1 sessionId now
  let context :=
    match data.bind (fun d => d.results) with
    | some rs =>
      { context with
        lastResults := some rs
        lastQuery := data.bind (fun d => d.query)
        lastOffset := some 0 }
    | none => context
  let context := { context with
    lastAction := some decision.action
    lastIntelligenceLevel := some "Super" }
  memSet m2 sessionId context

/-- `processUserMessage(message, sessionId)`: the orchestration pipeline.
`connect` models `mongoConnection.connect()` (which may throw), `store` the
document store, `sumAI` the summarizer collaborator, `now` the clock.  Any
exception escaping the pipeline is converted by `handleCriticalError`; the
model's only exception sources are `connect` and a malformed
`continue_query` decision. -/
def processUserMessage (connect : Except String Unit) (store : DataStore)
    (sumAI : SummarizerFn) (m : MemStore) (message sessionId : String)
    (now : Nat) : Envelope × MemStore :=
  match connect with
  | .error e => (handleCriticalError e sessionId, m)
  | .ok _ =>
    let (conversationContext, m1) := getContextPair m sessionId now
    let decision := analyzeUserRequest message conversationContext
    let dispatched : Except String (Option ProcData × Conv) :=
      if decision.action = "chat" || decision.action = "explain" then
        .ok (some { dtype := "conversation"
                    response := jsOrStr decision.conversationResponse
                      explanationResponseText
                    success := some true }, conversationContext)
      else if decision.action = "continue_query" then
        (executeContinuation decision message conversationContext).map
          (fun p => (some p.1, p.2))
      else if decision.action = "query" && decision.needsData then
        let (d, c) := executeSuperIntelligentQuery store
          (decision.queryInstruction.getD "") message conversationContext 0
        .ok (some d, c)
      else if decision.action = "summarize" then
        .ok (some (executeSummarization store sumAI
          (decision.summaryInstruction.getD "") message conversationContext),
          conversationContext)
      else
        .ok (none, conversationContext)
    match dispatched with
    | .error e => (handleCriticalError e sessionId, m1)
    | .ok (data, conv2) =>
      let finalResponse := generateFinalResponse data
      let m2 := memSet m1 sessionId conv2
      let m3 := updateConversationMemory m2 sessionId message decision data
        finalResponse now
      ({ response := finalResponse
         sessionId := sessionId
         processingTime := some 0
         resultCount := some (jsOrNat (data.bind (fun d => d.resultCount)) 0)
         intelligenceLevel := some "Super" }, m3)

/-- `clearSession(sessionId)`. -/
def clearSession (m : MemStore) (sessionId : String) : MemStore :=
  fun x => if x = sessionId then none else m x

/-- The projection returned by `getSessionStatus`. -/
structure SessionStatus where
  sessionId : String
  messageCount : Nat
  lastActivity : Nat
  hasResults : Bool
  lastAction : Option String
  intelligenceLevel : String
deriving DecidableEq

/-- `getSessionStatus(sessionId)`: reads the session through `getContext`,
hence returns both the projection and the (possibly changed) store. -/
def getSessionStatus (m : MemStore) (sessionId : String) (now : Nat) :
    SessionStatus × MemStore :=
  let (context, m2) := getContextPair m sessionId now
  ({ sessionId := sessionId
     messageCount := context.history.length
     lastActivity := context.lastActivity
     hasResults := 0 < (jsOrList context.lastResults).length
     lastAction := context.lastAction
     intelligenceLevel := jsOrStr context.lastIntelligenceLevel "Super" }, m2)

/-! ## Summarization service (`src/routes/summarization.js`) -/

namespace Summ

/-- Truthiness of a possibly-absent string property. -/
def jsTruthyStr (o : Option String) : Bool :=
  match o with
  | some s => s ≠ ""
  | none => false

/-- Truthiness of a possibly-absent number property. -/
def jsTruthyNat (o : Option Nat) : Bool :=
  match o with
  | some n => n ≠ 0
  | none => false

/-- One `data.article` entry.  `CreateTime` is modelled as a natural
timestamp (the JS code orders by `new Date(CreateTime)`); `sender` is the JS
`From` property (`from` is a Lean keyword). -/
structure Article where
  ArticleNumber : Option Nat := none
  sender : String := ""
  recipient : String := ""
  Subject : Option String := none
  Body : Option String := none
  CreateTime : Nat := 0
  SenderType : String := ""
  IsVisibleForCustomer : Nat := 0
deriving DecidableEq

/-- One `data.attachment` entry. -/
structure SAttachment where
  Filename : String := ""
  FilesizeRaw : Option Nat := none
  ContentType : String := ""
  Disposition : Option String := none
deriving DecidableEq

/-- The `data.ticket` header used by the summarizer.  Display timestamps
(`Created`, `Changed`, `Closed`) are kept as strings since they are only
rendered verbatim. -/
structure STicket where
  TicketID : Nat := 0
  TicketNumber : String := ""
  Title : String := ""
  CustomerID : String := ""
  State : String := ""
  StateType : String := ""
  Priority : String := ""
  PriorityID : Nat := 0
  Queue : String := ""
  Owner : Option String := none
  Responsible : Option String := none
  Created : String := ""
  Changed : String := ""
  Closed : Option String := none
  SolutionInMin : Option Nat := none
deriving DecidableEq

/-- A full stored conversation record, with the `|| []` defaults of
`data.article` and `data.attachment` applied. -/
structure SFullRec where
  ticket : STicket
  articles : List Article := []
  attachments : List SAttachment := []
deriving DecidableEq

/-- One timeline event (`createTimeline`'s mapped shape). -/
structure TimelineEvent where
  time : Nat
  sender : String
  stype : String
  subject : Option String
  preview : String
deriving DecidableEq

/-- The per-article map of `createTimeline`. -/
def toTimelineEvent (article : Article) : TimelineEvent :=
  { time := article.CreateTime
    sender := article.sender
    stype := article.SenderType
    subject := article.Subject
    preview :=
      match article.Body with
      | some b => if b = "" then "" else String.mk (b.data.take 100) ++ "..."
      | none => "" }

/-- `createTimeline(articles)`: sort by creation time (JS `Array.sort` is
stable), then map to events. -/
def createTimeline (articles : List Article) : List TimelineEvent :=
  (articles.mergeSort (fun a b => Nat.ble a.CreateTime b.CreateTime)).map
    toTimelineEvent

/-- `analysis.messageBreakdown`. -/
structure MessageBreakdown where
  customer : Nat
  agent : Nat
  system : Nat
  total : Nat
deriving DecidableEq

/-- `analysis.status`. -/
structure StatusInfo where
  isOpen : Bool
  isClosed : Bool
  isResolved : Bool
  timeToResolution : Option Nat
deriving DecidableEq

/-- `analysis.interaction`. -/
structure InteractionInfo where
  firstContact : Option Nat
  lastActivity : Option Nat
  lastSender : Option String
deriving DecidableEq

/-- `analysis.complexity`. -/
structure ComplexityInfo where
  hasAttachments : Bool
  messageVolume : String
  priority : String
deriving DecidableEq

/-- The `analysis` object. -/
structure Analysis where
  messageBreakdown : MessageBreakdown
  status : StatusInfo
  interaction : InteractionInfo
  complexity : ComplexityInfo
deriving DecidableEq

/-- `analyzeTicket(ticket, articles, attachments)` (the articles it receives
have already been sorted in place by `createTimeline`). -/
def analyzeTicket (ticket : STicket) (articles : List Article)
    (attachments : List SAttachment) : Analysis :=
  let customerMessages :=
    (articles.filter (fun a => a.SenderType = "customer")).length
  let agentMessages := (articles.filter (fun a => a.SenderType = "agent")).length
  let systemMessages :=
    (articles.filter (fun a => a.SenderType = "system")).length
  let isResolved := ticket.StateType = "closed"
  let lastMessage := articles.getLast?
  let firstMessage := articles.head?
  { messageBreakdown :=
      { customer := customerMessages
        agent := agentMessages
        system := systemMessages
        total := articles.length }
    status :=
      { isOpen := ["new", "open", "pending"].contains ticket.StateType
        isClosed := ticket.StateType = "closed"
        isResolved := isResolved
        timeToResolution := ticket.SolutionInMin }
    interaction :=
      { firstContact := firstMessage.map (fun a => a.CreateTime)
        lastActivity := lastMessage.map (fun a => a.CreateTime)
        lastSender := lastMessage.map (fun a => a.SenderType) }
    complexity :=
      { hasAttachments := 0 < attachments.length
        messageVolume :=
          if 5 < articles.length then "high"
          else if 2 < articles.length then "medium" else "low"
        priority :=
          if 4 ≤ ticket.PriorityID then "high"
          else if 3 ≤ ticket.PriorityID then "medium" else "low" } }

/-- `summaryData.ticket` (renamed header fields). -/
structure SummTicket where
  id : Nat
  number : String
  title : String
  customer : String
  state : String
  stateType : String
  priority : String
  priorityId : Nat
  queue : String
  owner : Option String
  responsible : Option String
  created : String
  changed : String
  closed : Option String
  solutionTime : Option Nat
deriving DecidableEq

/-- `summaryData.conversation.messages[i]`. -/
structure SummMessage where
  number : Nat
  sender : String
  recipient : String
  subject : Option String
  body : Option String
  createTime : Nat
  senderType : String
  visibleToCustomer : Bool
deriving DecidableEq

/-- `summaryData.conversation`. -/
structure SummConversation where
  messageCount : Nat
  messages : List SummMessage
  timeline : List TimelineEvent
deriving DecidableEq

/-- `summaryData.attachments.files[i]`. -/
structure SummFile where
  filename : String
  size : Option Nat
  ftype : String
  disposition : Option String
deriving DecidableEq

/-- `summaryData.attachments`. -/
structure SummAttachments where
  count : Nat
  files : List SummFile
deriving DecidableEq

/-- The structured summary object. -/
structure SummaryData where
  identifier : String
  ticket : SummTicket
  conversation : SummConversation
  attachments : SummAttachments
  analysis : Analysis
deriving DecidableEq

/-- Map the ticket header into the summary shape. -/
def toSummTicket (t : STicket) : SummTicket :=
  { id := t.TicketID
    number := t.TicketNumber
    title := t.Title
    customer := t.CustomerID
    state := t.State
    stateType := t.StateType
    priority := t.Priority
    priorityId := t.PriorityID
    queue := t.Queue
    owner := t.Owner
    responsible := t.Responsible
    created := t.Created
    changed := t.Changed
    closed := t.Closed
    solutionTime := t.SolutionInMin }

/-- The indexed message map (`article.ArticleNumber || (index + 1)`). -/
def toSummMessages : Nat → List Article → List SummMessage
  | _, [] => []
  | i, a :: rest =>
    { number := jsOrNat a.ArticleNumber (i + 1)
      sender := a.sender
      recipient := a.recipient
      subject := a.Subject
      body := a.Body
      createTime := a.CreateTime
      senderType := a.SenderType
      visibleToCustomer := a.IsVisibleForCustomer = 1 } :: toSummMessages (i + 1) rest

/-- `createPreciseSummary`'s structured data.  JS `Array.sort` sorts in
place, so `analysis` sees the chronologically sorted article list while
`messages` was mapped from the original order. -/
def createSummaryData (record : SFullRec) (originalIdentifier : String) :
    SummaryData :=
  let articles := record.articles
  let attachments := record.attachments
  let sortedArticles :=
    articles.mergeSort (fun a b => Nat.ble a.CreateTime b.CreateTime)
  { identifier := originalIdentifier
    ticket := toSummTicket record.ticket
    conversation :=
      { messageCount := articles.length
        messages := toSummMessages 0 articles
        timeline := sortedArticles.map toTimelineEvent }
    attachments :=
      { count := attachments.length
        files := attachments.map (fun att =>
          { filename := att.Filename
            size := att.FilesizeRaw
            ftype := att.ContentType
            disposition := att.Disposition }) }
    analysis := analyzeTicket record.ticket sortedArticles attachments }

/-- `Math.round(size / 1024)`. -/
def roundKb (n : Nat) : Nat :=
  (2 * n + 1024) / 2048

/-- Render a possibly-null number the way a JS template literal would. -/
def renderOptNat (o : Option Nat) : String :=
  match o with
  | some n => toString n
  | none => "null"

/-- The `## 🎫 Ticket Information` section. -/
def ticketInfoSection (t : SummTicket) : String :=
  "## 🎫 Ticket Information\n"
    ++ ("- **Ticket ID**: " ++ toString t.id ++ "\n"
    ++ "- **Ticket Number**: " ++ t.number ++ "\n"
    ++ "- **Customer**: " ++ t.customer ++ "\n"
    ++ "- **Status**: " ++ t.state ++ " (" ++ t.stateType ++ ")\n"
    ++ "- **Priority**: " ++ t.priority ++ "\n"
    ++ "- **Queue**: " ++ t.queue ++ "\n"
    ++ "- **Owner**: " ++ jsOrStr t.owner "Unassigned" ++ "\n"
    ++ "- **Created**: " ++ t.created ++ "\n"
    ++ (if jsTruthyStr t.closed then
          "- **Closed**: " ++ (t.closed.getD "") ++ "\n"
            ++ (if jsTruthyNat t.solutionTime then
                  "- **Resolution Time**: " ++ toString (t.solutionTime.getD 0)
                    ++ " minutes\n"
                else "")
        else ""))

/-- The `## 💬 Conversation Overview` section. -/
def convOverviewSection (data : SummaryData) : String :=
  "\n## 💬 Conversation Overview\n"
    ++ ("- **Total Messages**: " ++ toString data.conversation.messageCount ++ "\n"
    ++ "- **Customer Messages**: "
    ++ toString data.analysis.messageBreakdown.customer ++ "\n"
    ++ "- **Agent Messages**: "
    ++ toString data.analysis.messageBreakdown.agent ++ "\n"
    ++ "- **System Messages**: "
    ++ toString data.analysis.messageBreakdown.system ++ "\n"
    ++ (if 0 < data.attachments.count then
          "- **Attachments**: " ++ toString data.attachments.count ++ " files\n"
        else ""))

/-- One numbered conversation-flow entry. -/
def flowEntry (i : Nat) (event : TimelineEvent) : String :=
  let emoji :=
    if event.stype = "customer" then "👤"
    else if event.stype = "agent" then "👨‍💼" else "🤖"
  toString (i + 1) ++ ". " ++ emoji ++ " **" ++ event.sender ++ "** ("
    ++ toString event.time ++ ")\n   📧 *" ++ jsOrStr event.subject "No subject"
    ++ "*\n   💭 " ++ event.preview ++ "\n\n"

/-- The timeline `forEach` body. -/
def flowEntries : Nat → List TimelineEvent → String
  | _, [] => ""
  | i, e :: rest => flowEntry i e ++ flowEntries (i + 1) rest

/-- The `## 📝 Conversation Flow` section. -/
def flowSection (data : SummaryData) : String :=
  "\n## 📝 Conversation Flow\n" ++ flowEntries 0 data.conversation.timeline

/-- The `## 📊 Analysis` section. -/
def analysisSection (data : SummaryData) : String :=
  let analysis := data.analysis
  "## 📊 Analysis\n"
    ++ ("- **Status**: " ++ (if analysis.status.isOpen then "🟢 Open" else "🔴 Closed")
    ++ "\n"
    ++ "- **Priority Level**: "
    ++ (if analysis.complexity.priority = "high" then "🔴 High"
        else if analysis.complexity.priority = "medium" then "🟡 Medium"
        else "🟢 Low") ++ "\n"
    ++ "- **Complexity**: " ++ analysis.complexity.messageVolume ++ " volume, "
    ++ (if analysis.complexity.hasAttachments then "with attachments"
        else "no attachments") ++ "\n"
    ++ (if jsTruthyStr analysis.interaction.lastSender then
          "- **Last Activity**: " ++ renderOptNat analysis.interaction.lastActivity
            ++ " by " ++ (analysis.interaction.lastSender.getD "") ++ "\n"
        else ""))

/-- One attachment line. -/
def fileEntry (i : Nat) (f : SummFile) : String :=
  let size :=
    if jsTruthyNat f.size then
      "(" ++ toString (roundKb (f.size.getD 0)) ++ " KB)"
    else ""
  toString (i + 1) ++ ". **" ++ f.filename ++ "** " ++ size
    ++ "\n   📄 Type: " ++ f.ftype ++ "\n\n"

/-- The attachment `forEach` body. -/
def fileEntries : Nat → List SummFile → String
  | _, [] => ""
  | i, f :: rest => fileEntry i f ++ fileEntries (i + 1) rest

/-- The `## 📎 Attachments` section (emitted only when files exist). -/
def attachSection (data : SummaryData) : String :=
  if 0 < data.attachments.count then
    "\n## 📎 Attachments\n" ++ fileEntries 0 data.attachments.files
  else ""

/-- The `## 🚀 Next Steps` section (emitted only while the ticket is open). -/
def nextStepsSection (data : SummaryData) : String :=
  let analysis := data.analysis
  if analysis.status.isOpen then
    "\n## 🚀 Next Steps\n"
      ++ ((if analysis.interaction.lastSender = some "customer" then
            "- ⏰ **Awaiting agent response** - Customer last responded "
              ++ renderOptNat analysis.interaction.lastActivity ++ "\n"
          else if analysis.interaction.lastSender = some "agent" then
            "- ⏰ **Awaiting customer response** - Agent last responded "
              ++ renderOptNat analysis.interaction.lastActivity ++ "\n"
          else "")
      ++ (if analysis.complexity.priority = "high" then
            "- 🚨 **High priority ticket** - Requires immediate attention\n"
          else ""))
  else ""

/-- `generateNarrativeSummary(data)`: the headed sections, appended in the
source's fixed order. -/
def generateNarrativeSummary (data : SummaryData) : String :=
  "# 📋 Ticket Summary: " ++ data.ticket.title ++ "\n\n"
    ++ ticketInfoSection data.ticket
    ++ convOverviewSection data
    ++ flowSection data
    ++ analysisSection data
    ++ attachSection data
    ++ nextStepsSection data

/-- `createPreciseSummary` followed by `generateNarrativeSummary`. -/
def narrativeOf (record : SFullRec) (originalIdentifier : String) : String :=
  generateNarrativeSummary (createSummaryData record originalIdentifier)

end Summ

/-! ## Helper lemmas -/

theorem memSet_self (m : MemStore) (sid : String) (c : Conv) :
    memSet m sid c sid = some c := by
  simp [memSet]

theorem memSet_other (m : MemStore) (sid x : String) (c : Conv)
    (h : x ≠ sid) : memSet m sid c x = m x := by
  simp [memSet, h]

theorem updateContext_history (c : Conv) (i : Interaction) :
    (updateContext c i).history = c.history := rfl

/-- Every plan the direct pattern table can produce is bounded and
allow-listed. -/
theorem buildDirectQuery_spec (qi um : String) (p : QueryPlan)
    (hp : buildDirectQuery qi um = some p) :
    p.options.limit ≤ 1000 ∧ allowedFilter p.filter = true := by
  unfold buildDirectQuery at hp
  dsimp only at hp
  split at hp
  · exact Option.some.inj hp ▸ ⟨by decide, by decide⟩
  · split at hp
    · exact Option.some.inj hp ▸ ⟨by decide, by decide⟩
    · split at hp
      · next email heq =>
        exact Option.some.inj hp ▸
          ⟨by simp [emailPlan], by simp [emailPlan, allowedFilter, allowedCond]⟩
      · split at hp
        · exact Option.some.inj hp ▸ ⟨by decide, by decide⟩
        · exact absurd hp (by simp)

/-- One `addInteraction` step preserves the history bound for every
session. -/
theorem addInteraction_history_le (m : MemStore) (sid : String)
    (i : Interaction) (now : Nat)
    (hm : ∀ s c, m s = some c → c.history.length ≤ maxHistoryLength) :
    ∀ s c, (addInteraction m sid i now) s = some c →
      c.history.length ≤ maxHistoryLength := by
  intro s c hc
  by_cases hs : s = sid
  · subst hs
    unfold addInteraction at hc
    cases hm0 : m s with
    | none =>
      simp only [getContextPair, hm0, memSet_self] at hc
      injection hc with hc
      subst hc
      rw [updateContext_history]
      dsimp only
      split <;> (simp_all [maxHistoryLength]; try omega)
    | some c0 =>
      have hc0 := hm s c0 hm0
      simp only [getContextPair, hm0, memSet_self] at hc
      injection hc with hc
      subst hc
      rw [updateContext_history]
      dsimp only
      split
      · next hlen =>
        simp only [List.length_tail]
        simp only [List.length_append, List.length_singleton] at hlen ⊢
        omega
      · next hlen =>
        simp only [List.length_append, List.length_singleton] at hlen ⊢
        omega
  · unfold addInteraction at hc
    cases hm0 : m sid with
    | none =>
      simp only [getContextPair, hm0] at hc
      rw [memSet_other _ _ _ _ hs, memSet_other _ _ _ _ hs] at hc
      exact hm s c hc
    | some c0 =>
      simp only [getContextPair, hm0] at hc
      rw [memSet_other _ _ _ _ hs, memSet_other _ _ _ _ hs] at hc
      exact hm s c hc

/-- A whole sequence of `addInteraction` calls, folded over the store. -/
def addInteractionFold (ops : List (String × Interaction × Nat))
    (m : MemStore) : MemStore :=
  ops.foldl (fun acc op => addInteraction acc op.1 op.2.1 op.2.2) m

theorem addInteractionFold_inv (ops : List (String × Interaction × Nat)) :
    ∀ (m : MemStore),
      (∀ s c, m s = some c → c.history.length ≤ maxHistoryLength) →
      ∀ s c, addInteractionFold ops m s = some c →
        c.history.length ≤ maxHistoryLength := by
  induction ops with
  | nil => intro m hm; exact hm
  | cons op rest ih =>
    intro m hm
    exact ih _ (addInteraction_history_le m op.1 op.2.1 op.2.2 hm)

/-! ## Claim C4 (confirmed) -/

/-- Claim C4: for every session and every sequence of `addInteraction`
calls (starting from the empty store), the session history never exceeds 10
entries; and adding to a session whose history already holds 10 entries
evicts the oldest entry first (ring-buffer behaviour). -/
theorem C4_history_ring_buffer :
    (∀ (ops : List (String × Interaction × Nat)) (s : String) (c : Conv),
        addInteractionFold ops emptyMem s = some c →
        c.history.length ≤ 10)
    ∧ (∀ (m : MemStore) (sid : String) (i : Interaction) (now : Nat)
        (c c2 : Conv),
        m sid = some c → c.history.length = 10 →
        (addInteraction m sid i now) sid = some c2 →
        c2.history = c.history.tail ++ [histEntryOf i now]) := by
  constructor
  · intro ops s c hc
    exact addInteractionFold_inv ops emptyMem (by intro s c h; cases h) s c hc
  · intro m sid i now c c2 hm hlen hc
    unfold addInteraction at hc
    simp only [getContextPair, hm] at hc
    rw [memSet_self] at hc
    cases hc
    rw [updateContext_history]
    dsimp only
    have hne : maxHistoryLength < (c.history ++ [histEntryOf i now]).length := by
      simp [maxHistoryLength, hlen]
    rw [if_pos hne]
    cases hh : c.history with
    | nil => rw [hh] at hlen; simp at hlen
    | cons a t => simp

/-- Witness interaction for C4. -/
def c4Inter : Interaction :=
  { userMessage := "hi", intent := greetingDecision, response := "ok" }

/-- Twelve interactions on session "s". -/
def c4Ops : List (String × Interaction × Nat) :=
  List.replicate 12 ("s", c4Inter, 0)

/-- The session after the twelve interactions. -/
def c4Conv : Conv :=
  (addInteractionFold c4Ops emptyMem "s").getD {}

/-- A ten-entry history. -/
def c4TenHistory : List HistEntry :=
  List.replicate 10 (histEntryOf c4Inter 0)

/-- A store holding a full session. -/
def c4FullMem : MemStore :=
  memSet emptyMem "s" { history := c4TenHistory }

/-- The full session after one more interaction. -/
def c4Conv2 : Conv :=
  ((addInteraction c4FullMem "s" c4Inter 3) "s").getD {}

/-- Witness for C4 at concrete inputs. -/
theorem C4_history_ring_buffer_witness :
    (addInteractionFold c4Ops emptyMem "s" = some c4Conv
      ∧ c4Conv.history.length ≤ 10)
    ∧ ((addInteraction c4FullMem "s" c4Inter 3) "s" = some c4Conv2
      ∧ c4Conv2.history = c4TenHistory.tail ++ [histEntryOf c4Inter 3]) := by
  refine ⟨⟨rfl, C4_history_ring_buffer.1 c4Ops "s" c4Conv rfl⟩,
    ⟨rfl, C4_history_ring_buffer.2 c4FullMem "s" c4Inter 3 _ c4Conv2
      (by rfl) (by decide) (by rfl)⟩⟩

/-! ## Claim C5 (confirmed) -/

/-- Claim C5: every query plan the planner can produce — any direct pattern
match, the default plan, and the correction path — has `options.limit ≤
1000` and a filter using only allow-listed operators (no `$where`-style
code evaluation). -/
theorem C5_limit_bounded_and_allowlisted :
    ∀ (queryInstruction userMessage : String),
      (plannedQuery queryInstruction userMessage).options.limit ≤ 1000
      ∧ allowedFilter (plannedQuery queryInstruction userMessage).filter = true
      ∧ correctedQueryPlan.options.limit ≤ 1000
      ∧ allowedFilter correctedQueryPlan.filter = true := by
  intro qi um
  refine ⟨?_, ?_, by decide, by decide⟩
  · cases hbd : buildDirectQuery qi um with
    | some p =>
      simpa [plannedQuery, hbd] using (buildDirectQuery_spec qi um p hbd).1
    | none => simp [plannedQuery, hbd, simpleQueryPlan]
  · cases hbd : buildDirectQuery qi um with
    | some p =>
      simpa [plannedQuery, hbd] using (buildDirectQuery_spec qi um p hbd).2
    | none =>
      simp [plannedQuery, hbd, simpleQueryPlan, allowedFilter, allowedCond]

/-! ## Claim C8 (corrected) -/

/-- Counterexample to claim C8: session inspection is not a read-only
projection.  On an unknown session id `getSessionStatus` creates a fresh
session entry, and on a known session it bumps `lastActivity` (here from 0
to 7). -/
theorem C8_counterexample :
    emptyMem "diag" = none
    ∧ (getSessionStatus emptyMem "diag" 5).2 "diag"
        = some { lastActivity := 5 }
    ∧ (memSet emptyMem "s" { lastActivity := 0 }) "s"
        = some { lastActivity := 0 }
    ∧ (getSessionStatus (memSet emptyMem "s" { lastActivity := 0 }) "s" 7).2 "s"
        = some { lastActivity := 7 } := by
  refine ⟨rfl, by decide, by decide, by decide⟩

/-- Claim C8 as amended: `getSessionStatus` reads the session through
`getContext`, which creates a default entry for an unknown session id and
refreshes `lastActivity` of a known one; apart from `lastActivity` no field
of an existing session changes, other sessions are untouched, and the
returned status is a pure projection of the session. -/
theorem C8_inspection_effect :
    ∀ (m : MemStore) (sid : String) (now : Nat),
      (∀ x, x ≠ sid → (getSessionStatus m sid now).2 x = m x)
      ∧ (m sid = none →
          (getSessionStatus m sid now).2 sid = some { lastActivity := now })
      ∧ (∀ c, m sid = some c →
          (getSessionStatus m sid now).2 sid
            = some { c with lastActivity := now })
      ∧ (getSessionStatus m sid now).1.sessionId = sid
      ∧ (∀ c, m sid = some c →
          (getSessionStatus m sid now).1.messageCount = c.history.length
          ∧ (getSessionStatus m sid now).1.hasResults
              = (0 < (jsOrList c.lastResults).length : Bool)
          ∧ (getSessionStatus m sid now).1.lastAction = c.lastAction) := by
  intro m sid now
  refine ⟨?_, ?_, ?_, ?_, ?_⟩
  · intro x hx
    cases hm : m sid <;>
      simp [getSessionStatus, getContextPair, hm, memSet_other _ _ _ _ hx]
  · intro hm
    simp [getSessionStatus, getContextPair, hm, memSet_self]
  · intro c hm
    simp [getSessionStatus, getContextPair, hm, memSet_self]
  · cases hm : m sid <;> simp [getSessionStatus, getContextPair, hm]
  · intro c hm
    refine ⟨?_, ?_, ?_⟩ <;> simp [getSessionStatus, getContextPair, hm]

/-- Witness for C8's amended theorem at concrete inputs. -/
theorem C8_inspection_effect_witness :
    (getSessionStatus emptyMem "w" 11).2 "other" = none
    ∧ (getSessionStatus emptyMem "w" 11).2 "w" = some { lastActivity := 11 }
    ∧ (getSessionStatus (memSet emptyMem "w" { lastActivity := 1 }) "w" 11).2 "w"
        = some { lastActivity := 11 }
    ∧ (getSessionStatus emptyMem "w" 11).1.sessionId = "w" := by
  refine ⟨(C8_inspection_effect emptyMem "w" 11).1 "other" (by decide),
    (C8_inspection_effect emptyMem "w" 11).2.1 rfl,
    (C8_inspection_effect (memSet emptyMem "w" { lastActivity := 1 }) "w" 11).2.2.1
      { lastActivity := 1 } (by decide),
    (C8_inspection_effect emptyMem "w" 11).2.2.2.1⟩

/-! ## Claim C1 (corrected) -/

/-- A record for the C1 counterexample. -/
def c1Rec : TRec := { ticket := some { TicketID := 7 } }

/-- A store that rejects every call except the ultimate fallback shape
(limit 20). -/
def c1Store : DataStore := fun _ o =>
  if o.limit = 20 then .ok [c1Rec] else .error "store rejected the filter"

/-- Counterexample to claim C1: the original execution throws, the ultimate
fallback call succeeds, yet the executor's result has `success = false`
(the fallback records are carried in `fallbackResults` with
`needsCorrection = true`), refuting the claimed `success = true`. -/
theorem C1_counterexample :
    c1Store simpleQueryPlan.filter simpleQueryPlan.options
      = .error "store rejected the filter"
    ∧ c1Store [] fallbackOptions = .ok [c1Rec]
    ∧ (executeQuery c1Store simpleQueryPlan).success = false
    ∧ (executeQuery c1Store simpleQueryPlan).fallbackResults = some [c1Rec]
    ∧ (executeQuery c1Store simpleQueryPlan).needsCorrection = true := by
  refine ⟨rfl, rfl, rfl, rfl, rfl⟩

/-- Claim C1 as amended: when the plan's execution throws, the executor runs
the ultimate fallback (empty filter, limit 20); if that call succeeds it
returns a `success = false` result carrying the fallback records in
`fallbackResults` with `needsCorrection = true` (not `success = true`); if
the fallback also fails it returns `success = false` with an empty record
list and result count 0.  Both outcomes are ordinary return values: no
exception propagates. -/
theorem C1_executor_fallback :
    ∀ (store : DataStore) (plan : QueryPlan) (e : String),
      store plan.filter plan.options = .error e →
      ((∀ rs, store [] fallbackOptions = .ok rs →
          executeQuery store plan =
            { success := false
              fallbackResults := some rs
              resultCount := rs.length
              explanation := "Used fallback query - original query failed"
              needsCorrection := true })
       ∧ (∀ e2, store [] fallbackOptions = .error e2 →
          executeQuery store plan =
            { success := false
              error := some e2
              fallbackResults := some []
              resultCount := 0
              explanation := "Database connection completely failed"
              needsCorrection := true })) := by
  intro store plan e he
  constructor
  · intro rs hrs
    simp [executeQuery, he, createFallbackQuery, hrs]
  · intro e2 he2
    simp [executeQuery, he, createFallbackQuery, he2]

/-- Witness for C1's amended theorem: both fallback outcomes at concrete
stores. -/
theorem C1_executor_fallback_witness :
    executeQuery c1Store simpleQueryPlan =
      { success := false
        fallbackResults := some [c1Rec]
        resultCount := 1
        explanation := "Used fallback query - original query failed"
        needsCorrection := true }
    ∧ executeQuery (fun _ _ => .error "down") simpleQueryPlan =
      { success := false
        error := some "down"
        fallbackResults := some []
        resultCount := 0
        explanation := "Database connection completely failed"
        needsCorrection := true } := by
  refine ⟨(C1_executor_fallback c1Store simpleQueryPlan
      "store rejected the filter" rfl).1 [c1Rec] rfl,
    (C1_executor_fallback (fun _ _ => .error "down") simpleQueryPlan
      "down" rfl).2 "down" rfl⟩

/-! ## Claim C6 (corrected) -/

/-- Counterexample to claim C6: the pattern table has no closed-ticket step.
A closed-ticket instruction that escapes the earlier patterns falls through
to the default plan with an empty filter (no `StateType` condition), and the
instruction the router actually generates for closed-ticket requests
("Find all closed tickets") hits the "all tickets" pattern — again with an
empty filter.  Under the claim, closed-ticket detection should have produced
a closed-state filter before the default plan. -/
theorem C6_counterexample :
    buildDirectQuery "closed tickets" "closed tickets" = none
    ∧ plannedQuery "closed tickets" "closed tickets" = simpleQueryPlan
    ∧ simpleQueryPlan.filter = []
    ∧ generateQueryInstruction "show closed tickets" = "Find all closed tickets"
    ∧ plannedQuery "Find all closed tickets" "show closed tickets"
        = allTicketsPlan
    ∧ allTicketsPlan.filter = [] := by
  refine ⟨by decide, by decide, rfl, by decide, by decide, rfl⟩

/-- Claim C6 as amended: the planner resolves an instruction by trying, in
order with first match winning, ticket-ID-only listing (projection to the id
field, limit 1000), "all tickets" (empty filter, limit 100), email-address
detection (CustomerID equality filter), and open-ticket detection
(`StateType ∈ {open, new, pending}`); there is no closed-ticket pattern.
When no pattern matches it produces the default plan: empty filter, sort by
creation time descending, limit 50. -/
theorem C6_resolution_order :
    ∀ (qi um : String),
      (((jsIncludes (jsToLower qi) "ticket" && jsIncludes (jsToLower qi) "id")
          || (jsIncludes (jsToLower um) "ticketid"
              || jsIncludes (jsToLower um) "ticket id")) = true →
        plannedQuery qi um = ticketIdPlan)
      ∧ (((jsIncludes (jsToLower qi) "ticket" && jsIncludes (jsToLower qi) "id")
          || (jsIncludes (jsToLower um) "ticketid"
              || jsIncludes (jsToLower um) "ticket id")) = false →
         (jsIncludes (jsToLower qi) "all" && jsIncludes (jsToLower qi) "ticket") = true →
        plannedQuery qi um = allTicketsPlan)
      ∧ (∀ email,
         ((jsIncludes (jsToLower qi) "ticket" && jsIncludes (jsToLower qi) "id")
          || (jsIncludes (jsToLower um) "ticketid"
              || jsIncludes (jsToLower um) "ticket id")) = false →
         (jsIncludes (jsToLower qi) "all" && jsIncludes (jsToLower qi) "ticket") = false →
         emailMatch um.data = some email →
        plannedQuery qi um = emailPlan email)
      ∧ (((jsIncludes (jsToLower qi) "ticket" && jsIncludes (jsToLower qi) "id")
          || (jsIncludes (jsToLower um) "ticketid"
              || jsIncludes (jsToLower um) "ticket id")) = false →
         (jsIncludes (jsToLower qi) "all" && jsIncludes (jsToLower qi) "ticket") = false →
         emailMatch um.data = none →
         (jsIncludes (jsToLower um) "open" && jsIncludes (jsToLower um) "ticket") = true →
        plannedQuery qi um = openTicketsPlan)
      ∧ (((jsIncludes (jsToLower qi) "ticket" && jsIncludes (jsToLower qi) "id")
          || (jsIncludes (jsToLower um) "ticketid"
              || jsIncludes (jsToLower um) "ticket id")) = false →
         (jsIncludes (jsToLower qi) "all" && jsIncludes (jsToLower qi) "ticket") = false →
         emailMatch um.data = none →
         (jsIncludes (jsToLower um) "open" && jsIncludes (jsToLower um) "ticket") = false →
        plannedQuery qi um = simpleQueryPlan)
      ∧ ticketIdPlan.options.projection
          = some [("data.ticket.TicketID", 1), ("_id", 0)]
      ∧ ticketIdPlan.options.limit = 1000
      ∧ allTicketsPlan.filter = []
      ∧ allTicketsPlan.options.limit = 100
      ∧ (∀ email, (emailPlan email).filter
          = [("data.ticket.CustomerID", MongoCond.eqStr email)])
      ∧ openTicketsPlan.filter
          = [("data.ticket.StateType", MongoCond.inStrs ["open", "new", "pending"])]
      ∧ simpleQueryPlan.filter = []
      ∧ simpleQueryPlan.options.sort = some ⟨"data.ticket.Created", -1⟩
      ∧ simpleQueryPlan.options.limit = 50 := by
  intro qi um
  refine ⟨?_, ?_, ?_, ?_, ?_, rfl, rfl, rfl, rfl, fun _ => rfl, rfl, rfl, rfl,
    rfl⟩
  · intro h1
    simp [plannedQuery, buildDirectQuery, h1]
  · intro h1 h2
    simp [plannedQuery, buildDirectQuery, h1, h2]
  · intro email h1 h2 he
    simp [plannedQuery, buildDirectQuery, h1, h2, he]
  · intro h1 h2 he h3
    simp [plannedQuery, buildDirectQuery, h1, h2, he, h3]
  · intro h1 h2 he h3
    simp [plannedQuery, buildDirectQuery, h1, h2, he, h3]

/-- Witness for C6's amended theorem: one branch per resolution step. -/
theorem C6_resolution_order_witness :
    plannedQuery "list ticket ids" "x" = ticketIdPlan
    ∧ plannedQuery "all tickets" "x" = allTicketsPlan
    ∧ plannedQuery "find" "tickets of bob@example.com" = emailPlan "bob@example.com"
    ∧ plannedQuery "find" "open tickets" = openTicketsPlan
    ∧ plannedQuery "hello" "hello" = simpleQueryPlan := by
  refine ⟨(C6_resolution_order "list ticket ids" "x").1 (by decide),
    (C6_resolution_order "all tickets" "x").2.1 (by decide) (by decide),
    (C6_resolution_order "find" "tickets of bob@example.com").2.2.1
      "bob@example.com" (by decide) (by decide) (by decide),
    (C6_resolution_order "find" "open tickets").2.2.2.1
      (by decide) (by decide) (by decide) (by decide),
    (C6_resolution_order "hello" "hello").2.2.2.2.1
      (by decide) (by decide) (by decide) (by decide)⟩

/-! ## Claim C10 (corrected) -/

/-- One continuation turn as the coordinator performs it: the intent router
classifies the message against the session, and the `continue_query`
decision is handed to `executeContinuation`. -/
def continuationTurn (message : String) (conv : Conv) :
    Except String (ProcData × Conv) :=
  executeContinuation (analyzeUserRequest message conv) message conv

/-- Sixty records with ticket ids 1..60. -/
def c10Recs : List TRec :=
  (List.range 60).map (fun i => { ticket := some { TicketID := i + 1 } })

/-- A store returning the sixty records for every query. -/
def c10Store : DataStore := fun _ _ => .ok c10Recs

/-- The fresh identifier-only listing turn. -/
def c10Fresh : ProcData × Conv :=
  executeSuperIntelligentQuery c10Store
    "Get all tickets and return only their TicketID values"
    "list all ticket ids" {} 0

/-- The continuation turn that follows. -/
def c10Cont : Except String (ProcData × Conv) :=
  continuationTurn "see more" c10Fresh.2

/-- Extract the pair from a continuation outcome (dummy on error). -/
def contPairOf (e : Except String (ProcData × Conv)) : ProcData × Conv :=
  match e with
  | .ok p => p
  | .error _ => ({ dtype := "", response := "" }, {})

/-- The continuation's data and session. -/
def c10Pair : ProcData × Conv := contPairOf c10Cont

/-- Counterexample to claim C10: after an identifier-only listing that
displayed the first 50 of 60 ticket ids (stored offset reset to 0), the
continuation re-displays records 20 through 39 — a 20-record page ending at
position 40 — not records 20 through 49 as claimed. -/
theorem C10_counterexample :
    c10Fresh.1.displayedIds.length = 50
    ∧ c10Fresh.2.lastOffset = some 0
    ∧ c10Cont = .ok c10Pair
    ∧ c10Pair.1.displayed = (c10Recs.drop 20).take 20
    ∧ c10Pair.1.pagination = some
        { currentStart := 21, currentEnd := 40, total := 60, remaining := 20,
          hasMore := true }
    ∧ ¬ c10Pair.1.displayed = (c10Recs.drop 20).take 30
    ∧ c10Pair.2.lastOffset = some 40 := by
  refine ⟨by decide, rfl, rfl, by decide, by decide, by decide, rfl⟩

/-- Claim C10 as amended: the continuation decision computes the resume
offset as `lastOffset || 20`, treating the stored value 0 as unset, so the
first continuation after any fresh query (which stores offset 0) resumes at
index 20, regardless of how many results the first page displayed; in
particular, after an identifier-only listing that displayed the first 50
ticket ids, a continuation re-displays results 20 through 39 (a 20-record
page that was already shown). -/
theorem C10_zero_offset_resumes_at_20 :
    ∀ (conv : Conv) (message : String),
      isContinuationMsg (jsToLower message) = true →
      hasLastResults conv = true →
      conv.lastOffset = some 0 →
      detectObviousPatterns message conv = some (continueQueryDecision conv)
      ∧ (continueQueryDecision conv).continuationData
          = some { lastResults := conv.lastResults
                   lastQuery := conv.lastQuery
                   offset := 20 }
      ∧ (40 ≤ (jsOrList conv.lastResults).length →
          ∃ d conv2,
            executeContinuation (continueQueryDecision conv) message conv
              = .ok (d, conv2)
            ∧ d.displayed = ((jsOrList conv.lastResults).drop 20).take 20
            ∧ conv2.lastOffset = some 40) := by
  intro conv message hmsg hres hoff
  refine ⟨by simp [detectObviousPatterns, hmsg, hres], ?_, ?_⟩
  · simp [continueQueryDecision, hoff, jsOrNat, natOr]
  · intro hlen
    obtain ⟨rs, hrs⟩ : ∃ rs, conv.lastResults = some rs := by
      unfold hasLastResults at hres
      cases h : conv.lastResults with
      | none => rw [h] at hres; cases hres
      | some rs => exact ⟨rs, rfl⟩
    rw [hrs] at hlen ⊢
    have hlen2 : 40 ≤ rs.length := by simpa [jsOrList] using hlen
    have h20 : ((rs.drop 20).take 20).length = 20 := by
      simp [List.length_take, List.length_drop]
      omega
    have hex : executeContinuation (continueQueryDecision conv) message conv
        = .ok (createContinuationResponse ((rs.drop 20).take 20) 20
                 rs.length message,
               { conv with
                  lastOffset := some (20 + ((rs.drop 20).take 20).length) }) := by
      unfold executeContinuation
      simp only [continueQueryDecision, hoff, hrs]
      rw [show jsOrNat (some 0) 20 = 20 from rfl]
      rw [show natOr 20 20 = 20 from rfl]
      simp only [jsOrList]
      rw [if_neg (by omega), if_neg (by omega)]
    exact ⟨_, _, hex, rfl, by simp [h20]⟩

/-- A session holding the sixty records with stored offset 0. -/
def c10wConv : Conv := { lastResults := some c10Recs, lastOffset := some 0 }

/-- Witness for C10's amended theorem at concrete inputs. -/
theorem C10_zero_offset_resumes_at_20_witness :
    detectObviousPatterns "see more" c10wConv
        = some (continueQueryDecision c10wConv)
    ∧ ∃ d conv2,
        executeContinuation (continueQueryDecision c10wConv) "see more" c10wConv
          = .ok (d, conv2)
        ∧ d.displayed = ((jsOrList c10wConv.lastResults).drop 20).take 20
        ∧ conv2.lastOffset = some 40 := by
  have h := C10_zero_offset_resumes_at_20 c10wConv "see more"
    (by decide) (by decide) rfl
  exact ⟨h.1, h.2.2 (by decide)⟩

/-! ## Claim C3 (confirmed) -/

/-- Claim C3: on any text matching a continuation pattern, the router
returns a `continue_query` decision referencing the cached result set with
resume offset `lastOffset || 20` (20 when unset) whenever cached results
exist; with no cached results it returns a `chat` decision carrying the
guidance message, and a brand-new session answering such a message through
the full pipeline gets result count 0 and the guidance text, not an
error. -/
theorem C3_continuation_routing :
    ∀ (message : String) (conv : Conv),
      isContinuationMsg (jsToLower message) = true →
      (hasLastResults conv = true →
        detectObviousPatterns message conv = some (continueQueryDecision conv)
        ∧ (continueQueryDecision conv).action = "continue_query"
        ∧ (continueQueryDecision conv).continuationData
            = some { lastResults := conv.lastResults
                     lastQuery := conv.lastQuery
                     offset := jsOrNat conv.lastOffset 20 }
        ∧ (conv.lastOffset = none → jsOrNat conv.lastOffset 20 = 20))
      ∧ (hasLastResults conv = false →
        detectObviousPatterns message conv = some noPrevResultsDecision
        ∧ noPrevResultsDecision.action = "chat"
        ∧ noPrevResultsDecision.conversationResponse = some noPrevResultsText)
      ∧ (∀ (store : DataStore) (sumAI : SummarizerFn) (sid : String) (now : Nat),
          (processUserMessage (.ok ()) store sumAI emptyMem message sid now).1.resultCount
              = some 0
          ∧ (processUserMessage (.ok ()) store sumAI emptyMem message sid now).1.response
              = noPrevResultsText
          ∧ (processUserMessage (.ok ()) store sumAI emptyMem message sid now).1.error
              = none) := by
  intro message conv hmsg
  refine ⟨?_, ?_, ?_⟩
  · intro hres
    exact ⟨by simp [detectObviousPatterns, hmsg, hres], rfl, rfl,
      fun h => by simp [h, jsOrNat]⟩
  · intro hres
    exact ⟨by simp [detectObviousPatterns, hmsg, hres], rfl, rfl⟩
  · intro store sumAI sid now
    have hdec : analyzeUserRequest message { lastActivity := now }
        = noPrevResultsDecision := by
      simp [analyzeUserRequest, detectObviousPatterns, hmsg, hasLastResults]
    refine ⟨?_, ?_, ?_⟩ <;>
      simp [processUserMessage, getContextPair, emptyMem, hdec,
        noPrevResultsDecision, generateFinalResponse, jsOrStr, jsOrNat,
        noPrevResultsText]

/-- Witness for C3 at concrete inputs: a session with cached results and a
brand-new one. -/
theorem C3_continuation_routing_witness :
    detectObviousPatterns "show more" c10wConv
        = some (continueQueryDecision c10wConv)
    ∧ detectObviousPatterns "show more" {} = some noPrevResultsDecision
    ∧ (processUserMessage (.ok ()) c10Store (fun _ _ _ => .ok { success := true })
        emptyMem "show more" "fresh" 0).1.resultCount = some 0 := by
  refine ⟨((C3_continuation_routing "show more" c10wConv (by decide)).1
      (by decide)).1,
    ((C3_continuation_routing "show more" ({} : Conv) (by decide)).2.1
      (by decide)).1,
    ((C3_continuation_routing "show more" ({} : Conv) (by decide)).2.2
      c10Store (fun _ _ _ => .ok { success := true }) "fresh" 0).1⟩

/-! ## Claim C7 (corrected) -/

/-- Counterexample to claim C7: the success-path envelope carries no
`success` flag (here a greeting turn), and the caught-error envelope
carries no `resultCount`. -/
theorem C7_counterexample :
    (processUserMessage (.ok ()) (fun _ _ => .ok [])
        (fun _ _ _ => .ok { success := true }) emptyMem "hi" "default" 0).1.success
      = none
    ∧ (processUserMessage (.ok ()) (fun _ _ => .ok [])
        (fun _ _ _ => .ok { success := true }) emptyMem "hi" "default" 0).1.resultCount
      = some 0
    ∧ (processUserMessage (.error "db down") (fun _ _ => .ok [])
        (fun _ _ _ => .ok { success := true }) emptyMem "hi" "default" 0).1.resultCount
      = none
    ∧ (processUserMessage (.error "db down") (fun _ _ => .ok [])
        (fun _ _ _ => .ok { success := true }) emptyMem "hi" "default" 0).1.success
      = some false := by
  exact ⟨rfl, rfl, rfl, rfl⟩

/-- Claim C7 as amended: for every input, `processUserMessage` returns an
envelope echoing the session id with a string response; on the success path
the envelope carries `processingTime` and a numeric `resultCount` but no
`success` flag, while on the caught-error path it carries `success = false`
and an `error` string but no `resultCount`.  No exception escapes. -/
theorem C7_envelope_shape :
    ∀ (connect : Except String Unit) (store : DataStore) (sumAI : SummarizerFn)
      (m : MemStore) (message sid : String) (now : Nat),
      (processUserMessage connect store sumAI m message sid now).1.sessionId = sid
      ∧ (((processUserMessage connect store sumAI m message sid now).1.success = none
          ∧ (processUserMessage connect store sumAI m message sid now).1.error = none
          ∧ (processUserMessage connect store sumAI m message sid now).1.processingTime
              = some 0
          ∧ ∃ n, (processUserMessage connect store sumAI m message sid now).1.resultCount
              = some n)
        ∨ (∃ e, (processUserMessage connect store sumAI m message sid now).1.success
              = some false
            ∧ (processUserMessage connect store sumAI m message sid now).1.resultCount
              = none
            ∧ (processUserMessage connect store sumAI m message sid now).1.error
              = some e)) := by
  intro connect store sumAI m message sid now
  cases connect with
  | error e => exact ⟨rfl, Or.inr ⟨e, rfl, rfl, rfl⟩⟩
  | ok u =>
    unfold processUserMessage
    dsimp only
    constructor
    · split <;> rfl
    · split
      · next e _ => exact Or.inr ⟨e, rfl, rfl, rfl⟩
      · next p _ => exact Or.inl ⟨rfl, rfl, rfl, _, rfl⟩

/-! ## Claim C2 (confirmed) -/

theorem natOr_self (n : Nat) : natOr n n = n := by
  unfold natOr
  split <;> simp_all

/-- The general (non-identifier) branch of `createDirectQueryResponse`
renders the first 20 records. -/
theorem createDirectQueryResponse_general (qr : QueryResult) (um : String)
    (rs : List TRec)
    (hw : wantsTicketIdsOf um = false)
    (hres : qr.results = some rs)
    (hrc : qr.resultCount = rs.length)
    (hn : rs.length ≠ 0) :
    (createDirectQueryResponse qr um).displayed = rs.take 20 := by
  simp only [createDirectQueryResponse, hres, hrc, jsOrList]
  rw [natOr_self]
  rw [if_neg hn, hw]
  simp

/-- The router hands any continuation message with cached results to
`continue_query`. -/
theorem analyzeUserRequest_continue (message : String) (conv : Conv)
    (hm : isContinuationMsg (jsToLower message) = true)
    (hres : hasLastResults conv = true) :
    analyzeUserRequest message conv = continueQueryDecision conv := by
  simp [analyzeUserRequest, detectObviousPatterns, hm, hres]

/-- `executeContinuation` on a non-empty cached set with a non-zero resume
offset shows the 20-record slice at that offset and advances the stored
offset by the slice length. -/
theorem executeContinuation_shows (d : Decision) (cd : ContinuationData)
    (message : String) (conv : Conv) (rs : List TRec)
    (hd : d.continuationData = some cd)
    (hrs : cd.lastResults = some rs)
    (hoffnz : cd.offset ≠ 0)
    (hlen0 : rs.length ≠ 0)
    (hbnz : ((rs.drop cd.offset).take 20).length ≠ 0) :
    executeContinuation d message conv
      = .ok (createContinuationResponse ((rs.drop cd.offset).take 20)
               cd.offset rs.length message,
             { conv with
                lastOffset := some (cd.offset
                  + ((rs.drop cd.offset).take 20).length) }) := by
  unfold executeContinuation
  rw [hd]
  dsimp only
  rw [hrs]
  rw [show jsOrList (some rs) = rs from rfl]
  rw [show natOr cd.offset 20 = cd.offset from by unfold natOr; rw [if_neg hoffnz]]
  rw [if_neg hlen0, if_neg hbnz]

/-- Claim C2: with a cached result set of 45 records and page size 20, a
fresh successful query displays records [0,20) and resets the stored offset
to 0; the next two continuations display records [20,40) and [40,45),
advancing the stored offset by the displayed slice each time; after the
last slice the remaining count is 0 and the response closes with the
"all results shown" trailer, which offers no further "see more"
continuation. -/
theorem C2_pagination_scenario (rs : List TRec) (hlen : rs.length = 45)
    (sess : Conv) :
    let fresh := executeSuperIntelligentQuery (fun _ _ => Except.ok rs)
      "Get all tickets with basic information" "list all tickets" sess 0
    fresh.1.displayed = rs.take 20
    ∧ fresh.2.lastOffset = some 0
    ∧ fresh.2.lastResults = some rs
    ∧ ∃ d1 c1, continuationTurn "see more" fresh.2 = .ok (d1, c1)
      ∧ d1.displayed = (rs.drop 20).take 20
      ∧ d1.pagination = some
          { currentStart := 21, currentEnd := 40, total := 45, remaining := 5,
            hasMore := true }
      ∧ c1.lastOffset = some 40
      ∧ ∃ d2 c2, continuationTurn "see more" c1 = .ok (d2, c2)
        ∧ d2.displayed = (rs.drop 40).take 20
        ∧ d2.displayed.length = 5
        ∧ d2.pagination = some
            { currentStart := 41, currentEnd := 45, total := 45, remaining := 0,
              hasMore := false }
        ∧ c2.lastOffset = some 45
        ∧ d2.trailer
            = "**That\x27s all 45 results!**\nWould you like me to help you search or filter these tickets?"
        ∧ jsIncludes d2.trailer "see more" = false := by
  intro fresh
  have hfresh : fresh = (createDirectQueryResponse
      { success := true, query := some allTicketsPlan, results := some rs,
        resultCount := rs.length,
        explanation := "Get all tickets with basic information" }
      "list all tickets",
      { sess with
         lastResults := some rs
         lastQuery := some allTicketsPlan
         lastOffset := some 0 }) := rfl
  have hb1 : ((rs.drop 20).take 20).length = 20 := by
    simp [List.length_take, List.length_drop]
    omega
  have hb2 : ((rs.drop 40).take 20).length = 5 := by
    simp [List.length_take, List.length_drop]
    omega
  refine ⟨?_, ?_, ?_, ?_⟩
  · rw [hfresh]
    exact createDirectQueryResponse_general _ _ rs (by decide) rfl rfl
      (by omega)
  · rw [hfresh]
  · rw [hfresh]
  · -- first continuation
    have hres1 : hasLastResults fresh.2 = true := by
      rw [hfresh]
      simp [hasLastResults]
      omega
    have hcd1 : (continueQueryDecision fresh.2).continuationData
        = some { lastResults := some rs, lastQuery := some allTicketsPlan,
                 offset := 20 } := by
      rw [hfresh]
      rfl
    have hex1 := executeContinuation_shows (continueQueryDecision fresh.2)
      _ "see more" fresh.2 rs hcd1 rfl (by simp) (by omega)
      (by show ((rs.drop 20).take 20).length ≠ 0; omega)
    have hturn1 : continuationTurn "see more" fresh.2
        = .ok (createContinuationResponse ((rs.drop 20).take 20) 20
                 rs.length "see more",
               { fresh.2 with
                  lastOffset := some (20 + ((rs.drop 20).take 20).length) }) := by
      unfold continuationTurn
      rw [analyzeUserRequest_continue "see more" fresh.2 (by decide) hres1]
      exact hex1
    refine ⟨_, _, hturn1, rfl, ?_, ?_, ?_⟩
    · simp [createContinuationResponse, hb1, hlen]
    · simp [hb1]
    · -- second continuation
      have hc1 : ({ fresh.2 with
          lastOffset := some (20 + ((rs.drop 20).take 20).length) } : Conv)
          = { sess with
              lastResults := some rs
              lastQuery := some allTicketsPlan
              lastOffset := some 40 } := by
        rw [hfresh, hb1]
      rw [hc1]
      have hres2 : hasLastResults
          ({ sess with
             lastResults := some rs
             lastQuery := some allTicketsPlan
             lastOffset := some 40 } : Conv) = true := by
        simp [hasLastResults]
        omega
      have hcd2 : (continueQueryDecision
          { sess with
            lastResults := some rs
            lastQuery := some allTicketsPlan
            lastOffset := some 40 }).continuationData
          = some { lastResults := some rs, lastQuery := some allTicketsPlan,
                   offset := 40 } := rfl
      have hex2 := executeContinuation_shows _ _ "see more"
        ({ sess with
           lastResults := some rs
           lastQuery := some allTicketsPlan
           lastOffset := some 40 } : Conv) rs hcd2 rfl (by simp) (by omega)
        (by show ((rs.drop 40).take 20).length ≠ 0; omega)
      have hturn2 : continuationTurn "see more"
          ({ sess with
             lastResults := some rs
             lastQuery := some allTicketsPlan
             lastOffset := some 40 } : Conv)
          = .ok (createContinuationResponse ((rs.drop 40).take 20) 40
                   rs.length "see more",
                 { sess with
                    lastResults := some rs
                    lastQuery := some allTicketsPlan
                    lastOffset := some (40 + ((rs.drop 40).take 20).length) }) := by
        unfold continuationTurn
        rw [analyzeUserRequest_continue "see more" _ (by decide) hres2]
        exact hex2
      have htrailer : (createContinuationResponse ((rs.drop 40).take 20) 40
          rs.length "see more").trailer
          = "**That\x27s all 45 results!**\nWould you like me to help you search or filter these tickets?" := by
        simp only [createContinuationResponse]
        rw [hb2, hlen]
        norm_num
        rfl
      refine ⟨_, _, hturn2, rfl, hb2, ?_, ?_, htrailer, ?_⟩
      · simp [createContinuationResponse, hb2, hlen]
      · simp [hb2]
      · rw [htrailer]
        decide

/-- Forty-five records with ticket ids 1..45. -/
def c2Recs : List TRec :=
  (List.range 45).map (fun i => { ticket := some { TicketID := i + 1 } })

/-- Witness for C2 at concrete inputs. -/
theorem C2_pagination_scenario_witness :
    (executeSuperIntelligentQuery (fun _ _ => Except.ok c2Recs)
        "Get all tickets with basic information" "list all tickets" {} 0).1.displayed
      = c2Recs.take 20
    ∧ (executeSuperIntelligentQuery (fun _ _ => Except.ok c2Recs)
        "Get all tickets with basic information" "list all tickets" {} 0).2.lastOffset
      = some 0 := by
  have h := C2_pagination_scenario c2Recs (by decide) {}
  exact ⟨h.1, h.2.1⟩

/-! ## Claim C9 (corrected) -/

/-- The comparison `createTimeline` sorts by. -/
def articleLe (a b : Summ.Article) : Bool :=
  Nat.ble a.CreateTime b.CreateTime

/-- A single-message, attachment-free open ticket. -/
def c9Rec : Summ.SFullRec :=
  { ticket :=
      { TicketID := 13001952
        TicketNumber := "2025010610000001"
        Title := "Login fails"
        CustomerID := "jo@x.io"
        State := "open"
        StateType := "open"
        Priority := "3 normal"
        PriorityID := 3
        Queue := "Raw"
        Created := "2025-01-06"
        Changed := "2025-01-06" }
    articles :=
      [{ sender := "jo@x.io"
         Subject := some "Login fails"
         Body := some "I cannot log in"
         CreateTime := 100
         SenderType := "customer" }]
    attachments := [] }

set_option maxRecDepth 10000 in
unseal List.merge List.mergeSort in
/-- Counterexample to claim C9: a perfectly ordinary ticket with no
attachments produces a narrative with no `## 📎 Attachments` heading at
all, so the summary does not contain the claimed fixed six-section
sequence for every record (the other sections are present). -/
theorem C9_counterexample :
    c9Rec.attachments.length = 0
    ∧ jsIncludes (Summ.narrativeOf c9Rec "13001952") "## 📎 Attachments"
        = false
    ∧ jsIncludes (Summ.narrativeOf c9Rec "13001952") "## 🎫 Ticket Information"
        = true
    ∧ jsIncludes (Summ.narrativeOf c9Rec "13001952") "## 📝 Conversation Flow"
        = true := by
  exact ⟨rfl, by decide, by decide, by decide⟩

/-- Claim C9 as amended: the narrative is the fixed-order concatenation
Ticket Information → Conversation Overview → Conversation Flow → Analysis →
Attachments → Next Steps, where the Conversation Flow section lists exactly
one entry per message of the ticket in chronological order of message
creation time, the Attachments section appears exactly when the ticket has
at least one attachment, and the Next Steps section appears exactly when
the ticket is still open (`StateType ∈ {new, open, pending}`). -/
theorem C9_sections (record : Summ.SFullRec) (identifier : String) :
    let data := Summ.createSummaryData record identifier
    Summ.narrativeOf record identifier
      = "# 📋 Ticket Summary: " ++ data.ticket.title ++ "\n\n"
        ++ Summ.ticketInfoSection data.ticket
        ++ Summ.convOverviewSection data
        ++ Summ.flowSection data
        ++ Summ.analysisSection data
        ++ Summ.attachSection data
        ++ Summ.nextStepsSection data
    ∧ (∃ r, Summ.ticketInfoSection data.ticket
        = "## 🎫 Ticket Information\n" ++ r)
    ∧ (∃ r, Summ.convOverviewSection data
        = "\n## 💬 Conversation Overview\n" ++ r)
    ∧ Summ.flowSection data
        = "\n## 📝 Conversation Flow\n"
          ++ Summ.flowEntries 0 data.conversation.timeline
    ∧ (∃ r, Summ.analysisSection data = "## 📊 Analysis\n" ++ r)
    ∧ data.conversation.timeline.length = record.articles.length
    ∧ List.Sorted (· ≤ ·)
        (data.conversation.timeline.map Summ.TimelineEvent.time)
    ∧ data.conversation.timeline.Perm
        (record.articles.map Summ.toTimelineEvent)
    ∧ (0 < record.attachments.length ↔
        ∃ r, Summ.attachSection data = "\n## 📎 Attachments\n" ++ r)
    ∧ (record.attachments.length = 0 → Summ.attachSection data = "")
    ∧ (data.analysis.status.isOpen = true ↔
        ∃ r, Summ.nextStepsSection data = "\n## 🚀 Next Steps\n" ++ r)
    ∧ (data.analysis.status.isOpen = false → Summ.nextStepsSection data = "")
    ∧ data.analysis.status.isOpen
        = ["new", "open", "pending"].contains record.ticket.StateType := by
  intro data
  have hperm : (record.articles.mergeSort articleLe).Perm record.articles :=
    List.mergeSort_perm record.articles articleLe
  have htl : data.conversation.timeline
      = (record.articles.mergeSort articleLe).map Summ.toTimelineEvent := rfl
  refine ⟨rfl, ⟨_, rfl⟩, ⟨_, rfl⟩, rfl, ⟨_, rfl⟩, ?_, ?_, ?_, ?_, ?_, ?_, ?_,
    rfl⟩
  · rw [htl]
    simp [hperm.length_eq]
  · rw [htl]
    have htrans : ∀ a b c : Summ.Article, articleLe a b = true →
        articleLe b c = true → articleLe a c = true := by
      intro a b c hab hbc
      simp only [articleLe, Nat.ble_eq] at hab hbc ⊢
      omega
    have htotal : ∀ a b : Summ.Article,
        (articleLe a b || articleLe b a) = true := by
      intro a b
      simp only [articleLe, Bool.or_eq_true, Nat.ble_eq]
      omega
    have hsorted := List.sorted_mergeSort htrans htotal record.articles
    rw [List.map_map]
    rw [show List.Sorted (α := Nat) (· ≤ ·)
        = List.Pairwise (α := Nat) (· ≤ ·) from rfl]
    rw [List.pairwise_map]
    exact hsorted.imp (fun h => by
      simpa [articleLe, Nat.ble_eq] using h)
  · rw [htl]
    exact hperm.map Summ.toTimelineEvent
  · have hcount : data.attachments.count = record.attachments.length := rfl
    constructor
    · intro hpos
      have hc : 0 < data.attachments.count := by rw [hcount]; exact hpos
      exact ⟨_, by unfold Summ.attachSection; rw [if_pos hc]⟩
    · rintro ⟨r, hr⟩
      by_cases hc : 0 < data.attachments.count
      · rw [← hcount]
        exact hc
      · unfold Summ.attachSection at hr
        rw [if_neg hc] at hr
        have hl := congrArg String.length hr
        rw [String.length_append] at hl
        rw [show ("" : String).length = 0 from rfl] at hl
        have hpos2 : 0 < ("\n## 📎 Attachments\n" : String).length := by
          decide
        omega
  · intro h0
    have hcount : data.attachments.count = record.attachments.length := rfl
    have hc : ¬0 < data.attachments.count := by rw [hcount]; omega
    unfold Summ.attachSection
    rw [if_neg hc]
  · constructor
    · intro hopen
      exact ⟨_, by unfold Summ.nextStepsSection; rw [if_pos hopen]⟩
    · rintro ⟨r, hr⟩
      by_cases hc : data.analysis.status.isOpen = true
      · exact hc
      · unfold Summ.nextStepsSection at hr
        rw [if_neg hc] at hr
        have hl := congrArg String.length hr
        rw [String.length_append] at hl
        rw [show ("" : String).length = 0 from rfl] at hl
        have hpos2 : 0 < ("\n## 🚀 Next Steps\n" : String).length := by
          decide
        omega
  · intro hfalse
    have hc : ¬data.analysis.status.isOpen = true := by
      rw [hfalse]
      exact Bool.false_ne_true
    unfold Summ.nextStepsSection
    rw [if_neg hc]

set_option maxRecDepth 10000 in
unseal List.merge List.mergeSort in
/-- Witness for C9's amended theorem at the concrete ticket: the Attachments
section is absent (no attachments) and the Next Steps section present (open
ticket). -/
theorem C9_sections_witness :
    Summ.attachSection (Summ.createSummaryData c9Rec "13001952") = ""
    ∧ (∃ r, Summ.nextStepsSection (Summ.createSummaryData c9Rec "13001952")
        = "\n## 🚀 Next Steps\n" ++ r)
    ∧ (Summ.createSummaryData c9Rec "13001952").conversation.timeline.length
        = c9Rec.articles.length := by
  have h := C9_sections c9Rec "13001952"
  exact ⟨h.2.2.2.2.2.2.2.2.2.1 rfl,
    h.2.2.2.2.2.2.2.2.2.2.1.mp (by decide),
    h.2.2.2.2.2.1⟩

end TicketRag

namespace TicketRagTests

open TicketRag

example : isContinuationMsg "see more" = true := by decide
example : isContinuationMsg "show me the rest" = true := by decide
example : isContinuationMsg "hi" = false := by decide
example : isContinuationMsg "list all tickets" = false := by decide
example : reTestFull greetingRe "hi" = true := by decide
example : reTestFull greetingRe "hi there" = false := by decide
example : reTest summarizeRe "summarize ticket 2025010610000001" = true := by
  decide
example : reTest dataRe1 "list all tickets" = true := by decide
example : emailMatch "find tickets from john@email.com please".data
    = some "john@email.com" := by decide
example : emailMatch "closed tickets".data = none := by decide
example : emailMatch "a@b.co.uk!".data = some "a@b.co.uk" := by decide
example : jsIncludes "list all tickets" "id" = false := by decide
example : jsIncludes "get all tickets with basic information" "all" = true := by
  decide

end TicketRagTests
